import Mathlib

/-!
# reone: creature action execution and asynchronous path planning

A shallow embedding of `src/game/area_actions.cpp` (`Area::updateCreature`,
`Area::navigateCreature`, `Area::advanceCreatureOnPath`, `Area::selectNextPathPoint`,
`Area::updateCreaturePath`), of `ObjectFactory` (`src/game/object/factory.cpp`), of
`Game::loadNextModule` with `Game::loadModule` and of the accessors of local variables
(`src/game/game.cpp`), and of the scrolling of `ListBox` (`src/gui/control/listbox.cpp`),
together with theorems about them.

Conventions of the embedding:

* `float` quantities are exact rationals (`ℚ`); rounding is not modelled. The only
  arithmetic the embedded functions perform on them is the squared planar distance and
  comparisons.
* `uint32_t` timestamps are natural numbers, subtraction is taken modulo `2 ^ 32`.
* C++ faults (a failing `assert`, a null dereference, an out-of-range `vector` index) are
  explicit results of type `Fault`; a division by zero and an `int` overflow in `ListBox` are
  results of type `ArithFault`.
* Calls into collaborators and the calls the claims speak about are recorded, in order, in the
  `trace` field of the state.
-/

namespace Reone

/-! ## Data model -/

/-- The C++ type `glm::vec3`, with exact components. -/
structure Vec3 where
  x : ℚ
  y : ℚ
  z : ℚ
  deriving DecidableEq

/-- The C++ expression `glm::distance2(glm::vec2(a), glm::vec2(b))`: the squared distance of
the two points projected on the x-y plane. -/
def distance2 (a b : Vec3) : ℚ :=
  (a.x - b.x) * (a.x - b.x) + (a.y - b.y) * (a.y - b.y)

/-- The constant `kKeepPathDuration` (milliseconds). -/
def kKeepPathDuration : Nat := 1000

/-- Subtraction of two `uint32_t` values, as in `now - path->timeFound`. -/
def u32sub (a b : Nat) : Nat :=
  (a % 2 ^ 32 + 2 ^ 32 - b % 2 ^ 32) % 2 ^ 32

/-- The enumeration `MovementType`, declared outside the sources at hand: `None` and `Run` are
the values `area_actions.cpp` writes, `Walk` stands for the remaining enumerators. -/
inductive MovementType where
  | None
  | Walk
  | Run
  deriving DecidableEq

/-- The enumeration `Creature::ActionType`. Its declaration is not part of the sources at hand:
the four kinds `Area::updateCreature` names are constructors, every other enumerator is
`Other n` with `n` its integer value (the one the warning prints). -/
inductive ActionType where
  | MoveToPoint
  | Follow
  | DoCommand
  | StartConversation
  | Other (code : Int)
  deriving DecidableEq

/-- What `action.object` (a `shared_ptr<Object>`) refers to when `Area::updateCreature` looks at
it: nothing, an object that is not a `SpatialObject` (the `dynamic_cast` gives null), or a
spatial object together with its current position. -/
inductive ObjectRef where
  | null
  | nonSpatial
  | spatial (position : Vec3)
  deriving DecidableEq

/-- The C++ type `script::ExecutionContext`, as far as `Area::updateCreature` touches it: the
saved state (a `shared_ptr`, possibly null) reduced to the program it names, and the caller
id. -/
structure ExecutionContext where
  savedState : Option Nat
  callerId : Nat
  deriving DecidableEq

/-- The C++ type `Creature::Action`. -/
structure Action where
  type : ActionType
  object : ObjectRef
  point : Vec3
  distance : ℚ
  context : ExecutionContext
  resRef : String
  deriving DecidableEq

/-- The C++ type `Creature::Path`. -/
structure Path where
  destination : Vec3
  points : List Vec3
  timeFound : Nat
  pointIdx : Nat
  deriving DecidableEq

/-- The part of a `Creature` that `area_actions.cpp` reads and writes. The action stack has
its current (top) action at the head. -/
structure Creature where
  id : Nat
  position : Vec3
  actions : List Action
  path : Option Path
  pathUpdating : Bool
  movementType : MovementType
  deriving DecidableEq

/-- The ways a call can go wrong instead of returning. -/
inductive Fault where
  | assertionFailed
  | nullDereference
  | indexOutOfRange
  deriving DecidableEq

/-- The closure `Area::updateCreaturePath` hands to `TheJobExecutor.enqueue`. Its capture list
is `[=, &creature]`: the destination is copied into the closure, the creature is captured by
reference, so a job carries the destination and nothing of the creature's state. -/
structure Job where
  dest : Vec3
  deriving DecidableEq

/-- The calls recorded in the trace of a run. -/
inductive Event where
  | navigateCreature (dest : Vec3) (distance : ℚ) (dt : ℚ)
  | advanceCreatureOnPath (dt : ℚ)
  | updateCreaturePath (dest : Vec3)
  | selectNextPathPoint
  | moveCreatureTowards (dest : Vec3) (dt : ℚ)
  | popCurrentAction
  | scriptRun (program : Nat) (ctx : ExecutionContext)
  | onStartDialog (creatureId : Nat) (resRef : String)
  | warn (actionType : Int)
  | enqueue (job : Job)
  | findPath (origin : Vec3) (dest : Vec3)
  | setPath (dest : Vec3) (points : List Vec3) (timeFound : Nat)
  deriving DecidableEq

/-- The collaborators of `area_actions.cpp` whose code is not part of the sources at hand, and
the build configuration.

* `assertsEnabled`: whether `assert` is compiled in (`NDEBUG` not defined).
* `hasStartDialog`: whether the callback `_onStartDialog` is set.
* `runScript`: the effect on the acting creature of `ScriptExecution(program, ctx).run()`.
* `moveCreatureTowards`: `Area::moveCreatureTowards(creature, dest, dt)`, giving its boolean
  result and the position it leaves the creature at.
* `findPath`: the navigation query `_navMesh->findPath(origin, dest)`. -/
structure Env where
  assertsEnabled : Bool
  hasStartDialog : Bool
  runScript : Nat → ExecutionContext → Creature → Creature
  moveCreatureTowards : Creature → Vec3 → ℚ → Bool × Vec3
  findPath : Vec3 → Vec3 → List Vec3

/-- The state the embedded functions act on: the creature passed by reference, the jobs
submitted to `TheJobExecutor` and not yet run (oldest first), and the trace of calls. -/
structure World where
  creature : Creature
  jobs : List Job
  trace : List Event
  deriving DecidableEq

namespace World

/-- Append a call to the trace. -/
def log (w : World) (e : Event) : World :=
  { w with trace := w.trace ++ [e] }

end World

/-! ## Accessors of `Creature`

The bodies of these member functions live in `creature.cpp`, which is not among the sources at
hand. -/

namespace Creature

/-- Modelled from the spec: `Creature::hasActions` (`creature.cpp` is missing); the action
stack of §3 is non-empty. -/
def hasActions (c : Creature) : Bool :=
  !c.actions.isEmpty

/-- Modelled from the spec: `Creature::currentAction` (`creature.cpp` is missing); "the current
action is always the top entry". -/
def currentAction (c : Creature) : Option Action :=
  c.actions.head?

/-- Modelled from the spec: `Creature::popCurrentAction` (`creature.cpp` is missing);
"completing or aborting an action pops it, exposing the next one (or none)". -/
def popCurrentAction (c : Creature) : Creature :=
  { c with actions := c.actions.tail }

/-- Modelled from the spec: `Creature::setMovementType` (`creature.cpp` is missing); writes the
movement-type indicator. -/
def setMovementType (c : Creature) (t : MovementType) : Creature :=
  { c with movementType := t }

/-- Modelled from the spec: `Creature::isPathUpdating` (`creature.cpp` is missing); reads the
pending-update flag. -/
def isPathUpdating (c : Creature) : Bool :=
  c.pathUpdating

/-- Modelled from the spec: `Creature::setPathUpdating` (`creature.cpp` is missing); the
pending-update flag is "set when a job is dispatched". -/
def setPathUpdating (c : Creature) : Creature :=
  { c with pathUpdating := true }

/-- Modelled from the spec: `Creature::setPath` (`creature.cpp` is missing); "publishes a new
Path (destination, waypoints, cursor=0, computedAt) into the creature's Path Cache and clears
the pending-update flag". -/
def setPath (c : Creature) (dest : Vec3) (points : List Vec3) (timeFound : Nat) : Creature :=
  { c with
    path := some { destination := dest, points := points, timeFound := timeFound, pointIdx := 0 }
    pathUpdating := false }

end Creature

/-! ## The functions of `area_actions.cpp` -/

/-- The C++ function `Area::selectNextPathPoint`. -/
def selectNextPathPoint (path : Path) : Path :=
  let pointCount := path.points.length
  if path.pointIdx < pointCount then { path with pointIdx := path.pointIdx + 1 } else path

/-- The sub-target `Area::advanceCreatureOnPath` steers at:
`path->pointIdx == pointCount ? path->destination : path->points[path->pointIdx]`.
An index past the end of `points` is a fault. -/
def pathTarget (path : Path) : Except Fault Vec3 :=
  let pointCount := path.points.length
  if path.pointIdx = pointCount then .ok path.destination
  else
    match path.points[path.pointIdx]? with
    | some p => .ok p
    | none => .error .indexOutOfRange

/-- The C++ function `Area::advanceCreatureOnPath`. -/
def advanceCreatureOnPath (env : Env) (w : World) (dt : ℚ) : Except Fault World :=
  let origin := w.creature.position
  match w.creature.path with
  | none => .error .nullDereference
  | some path =>
    match pathTarget path with
    | .error e => .error e
    | .ok dest =>
      if distance2 origin dest ≤ 1 then
        .ok { (w.log .selectNextPathPoint) with
              creature := { w.creature with path := some (selectNextPathPoint path) } }
      else
        let moved := env.moveCreatureTowards w.creature dest dt
        let w1 := w.log (.moveCreatureTowards dest dt)
        let c1 := { w.creature with position := moved.2 }
        if moved.1 then
          .ok { (w1.log .selectNextPathPoint) with
                creature :=
                  ({ c1 with path := some (selectNextPathPoint path) }).setMovementType .Run }
        else
          .ok { w1 with creature := c1.setMovementType .None }

/-- The C++ function `Area::updateCreaturePath`: the guard on the pending-update flag, then
the flag is set and the closure is enqueued. -/
def updateCreaturePath (w : World) (dest : Vec3) : World :=
  if w.creature.isPathUpdating then w
  else
    { creature := w.creature.setPathUpdating
      jobs := w.jobs ++ [{ dest := dest }]
      trace := w.trace ++ [.enqueue { dest := dest }] }

/-- The body of the closure enqueued by `Area::updateCreaturePath`, run by a worker at clock
value `now`: it reads the position of the creature it holds by reference, asks the navigation
mesh for a path and stores it with `setPath`. The `atomic_bool` argument is not looked at. -/
def runJob (env : Env) (now : Nat) (job : Job) (w : World) : World :=
  let origin := w.creature.position
  let points := env.findPath origin job.dest
  { w with
    creature := w.creature.setPath job.dest points now
    trace := w.trace ++ [.findPath origin job.dest, .setPath job.dest points now] }

/-- The C++ function `Area::navigateCreature`; `now` is what `SDL_GetTicks()` returns. -/
def navigateCreature (env : Env) (now : Nat) (w : World) (dest : Vec3) (distance dt : ℚ) :
    Except Fault (Bool × World) :=
  let origin := w.creature.position
  let distToDest := distance2 origin dest
  if distToDest ≤ distance then
    .ok (true, { w with creature := w.creature.setMovementType .None })
  else
    match w.creature.path with
    | some path =>
      if path.destination = dest ∨ u32sub now path.timeFound ≤ kKeepPathDuration then
        match advanceCreatureOnPath env (w.log (.advanceCreatureOnPath dt)) dt with
        | .error e => .error e
        | .ok w1 => .ok (false, w1)
      else
        .ok (false, updateCreaturePath (w.log (.updateCreaturePath dest)) dest)
    | none =>
      .ok (false, updateCreaturePath (w.log (.updateCreaturePath dest)) dest)

/-- The `dynamic_cast<SpatialObject *>(action.object.get())` of `Area::updateCreature`: the
position of the spatial object referred to, or nothing when the cast gives null. -/
def ObjectRef.asSpatial : ObjectRef → Option Vec3
  | .spatial p => some p
  | _ => none

/-- The boolean value of `action.object` (a `shared_ptr`): true unless it is null. -/
def ObjectRef.isSet : ObjectRef → Bool
  | .null => false
  | _ => true

/-- Pop the current action of the creature, recording the call. -/
def World.popCurrentAction (w : World) : World :=
  { w with creature := w.creature.popCurrentAction, trace := w.trace ++ [.popCurrentAction] }

/-- The destination computed in the movement branch of `Area::updateCreature`, from the
`assert(spatial)` on:
`(action.type == Follow || action.object) ? spatial->position() : action.point`. -/
def resolveDestination (env : Env) (action : Action) : Except Fault Vec3 :=
  let spatial := action.object.asSpatial
  if env.assertsEnabled && spatial.isNone then .error .assertionFailed
  else if action.type = .Follow ∨ action.object.isSet = true then
    match spatial with
    | some p => .ok p
    | none => .error .nullDereference
  else .ok action.point

/-- The C++ function `Area::updateCreature`; `now` is what `SDL_GetTicks()` returns. -/
def updateCreature (env : Env) (now : Nat) (w : World) (dt : ℚ) : Except Fault World :=
  if !w.creature.hasActions then .ok w
  else
  match w.creature.currentAction with
  | none => .ok w
  | some action =>
    match action.type with
    | .MoveToPoint | .Follow =>
      match resolveDestination env action with
      | .error e => .error e
      | .ok dest =>
        match navigateCreature env now (w.log (.navigateCreature dest action.distance dt))
            dest action.distance dt with
        | .error e => .error e
        | .ok (reached, w1) =>
          if reached && action.type = .MoveToPoint then .ok w1.popCurrentAction else .ok w1
    | .DoCommand =>
      let ctx : ExecutionContext := { action.context with callerId := w.creature.id }
      match action.context.savedState with
      | none => .error .nullDereference
      | some program =>
        .ok { w with
              creature := env.runScript program ctx w.creature
              trace := w.trace ++ [.scriptRun program ctx] }
    | .StartConversation =>
      let w1 := if env.hasStartDialog then w.log (.onStartDialog w.creature.id action.resRef) else w
      .ok w1.popCurrentAction
    | .Other code =>
      .ok (w.log (.warn code)).popCurrentAction

/-! ## The job executor and the interleaving of requests and completions -/

/-- Modelled from the spec: the Job Executor (`core/jobs.h` and its implementation are
missing) "accepting cancellable units of work"; a completion takes the oldest submitted unit of
work off the queue and runs its body, at clock value `now`. Without a submitted unit nothing
happens. -/
def completeJob (env : Env) (now : Nat) (w : World) : World :=
  match w.jobs with
  | [] => w
  | job :: rest => runJob env now job { w with jobs := rest }

/-- The simulation thread writes the position of the creature, between a submission and the
run of the job. -/
def World.moveCreature (w : World) (position : Vec3) : World :=
  { w with creature := { w.creature with position := position } }

/-- One step of an interleaving on one creature: the simulation thread calls
`Area::updateCreaturePath`, or a submitted job completes. -/
inductive PathStep where
  | request (dest : Vec3)
  | complete (now : Nat)
  deriving DecidableEq

/-- The effect of one step of an interleaving. -/
def pathStep (env : Env) (w : World) : PathStep → World
  | .request dest => updateCreaturePath w dest
  | .complete now => completeJob env now w

/-- The effect of an interleaving, step after step. -/
def runPathSteps (env : Env) (w : World) (steps : List PathStep) : World :=
  steps.foldl (pathStep env) w

/-- The closure enqueued by `Area::updateCreaturePath` as the executor calls it, with the
`const atomic_bool &` it is handed for cooperative cancellation (`cancel` is true when
cancellation has been signalled). The parameter has no name in the source and the body never
reads it. -/
def jobBody (env : Env) (now : Nat) (job : Job) (_cancel : Bool) (w : World) : World :=
  runJob env now job w

/-! ## `ObjectFactory` (`object/factory.h`, `object/factory.cpp`) -/

/-- The class `ObjectFactory`, reduced to its member `uint32_t _counter`. -/
structure ObjectFactory where
  counter : Nat
  deriving DecidableEq

/-- The kinds of object the factory creates, one per `new...` member function. -/
inductive ObjectKind where
  | Module
  | Area
  | Creature
  | Placeable
  | Door
  | Waypoint
  | Trigger
  deriving DecidableEq

/-- An object as the factory hands it out: its kind and the id passed to its constructor. -/
structure CreatedObject where
  kind : ObjectKind
  id : Nat
  deriving DecidableEq

namespace ObjectFactory

/-- The expression `_counter++` on the `uint32_t` member: the value before the increment, and
the factory with the counter incremented modulo `2 ^ 32`. -/
def postIncrement (f : ObjectFactory) : Nat × ObjectFactory :=
  (f.counter, { counter := (f.counter + 1) % 2 ^ 32 })

/-- The C++ function `ObjectFactory::newModule`. -/
def newModule (f : ObjectFactory) : CreatedObject × ObjectFactory :=
  ({ kind := .Module, id := f.postIncrement.1 }, f.postIncrement.2)

end ObjectFactory

/-! ## `Game::loadNextModule` (`game.cpp`) -/

/-- The enumeration `Game::Screen`, as far as `game.cpp` names its values. -/
inductive Screen where
  | MainMenu
  | ClassSelection
  | PortraitSelection
  | InGame
  | Dialog
  | Container
  deriving DecidableEq

/-- The effects of `Game::loadNextModule` and `Game::loadModule` on their collaborators and on
the loaded module, in the order of the statements that cause them. -/
inductive GameEffect where
  | info (msg : String)
  | jobsCancel
  | jobsAwait
  | moduleSaveTo (moduleId : Nat)
  | resLoadModule (name : String)
  | resFindModuleInfo
  | moduleReplaced (moduleId : Nat)
  | configureModule
  | moduleLoad (name : String)
  | moduleLoadParty (entry : String)
  | areaLoadState
  | moduleInitGL
  | musicStop
  | playMusic (name : String)
  | loadHUD
  | loadDebugGui
  | loadDialogGui
  | loadContainerGui
  deriving DecidableEq

/-- The members of `Game` that `loadNextModule` and `loadModule` read and write. `loadedModule`
is the id of the module `_module` points at, if any; the boolean fields tell whether the
pointer of the same name is set. -/
structure Game where
  loadedModule : Option Nat
  nextModule : String
  nextEntry : String
  objectFactory : ObjectFactory
  music : Bool
  hud : Bool
  debugGui : Bool
  dialogGui : Bool
  containerGui : Bool
  ticks : Nat
  screen : Screen
  effects : List GameEffect
  deriving DecidableEq

/-- What `Game::loadModule` gets from outside: the music of the area of a module (by module
name) and the value of `SDL_GetTicks()`. -/
structure GameEnv where
  areaMusic : String → String
  now : Nat

namespace Game

/-- Record effects, in order. -/
def emit (g : Game) (es : List GameEffect) : Game :=
  { g with effects := g.effects ++ es }

/-- The C++ function `Game::loadModule`. -/
def loadModule (env : GameEnv) (g : Game) (name : String) (entry : String) : Game :=
  let g1 := g.emit [.info ("Game: load module: " ++ name), .resLoadModule name, .resFindModuleInfo]
  let created := g1.objectFactory.newModule
  let g2 := { g1 with loadedModule := some created.1.id, objectFactory := created.2 }
  let g3 := g2.emit [.moduleReplaced created.1.id, .configureModule, .moduleLoad name,
    .moduleLoadParty entry, .areaLoadState, .moduleInitGL]
  let g4 := if g3.music then g3.emit [.musicStop] else g3
  let musicName := env.areaMusic name
  let g5 := if musicName.isEmpty then g4 else { g4.emit [.playMusic musicName] with music := true }
  let g6 := if g5.hud then g5 else { g5.emit [.loadHUD] with hud := true }
  let g7 := if g6.debugGui then g6 else { g6.emit [.loadDebugGui] with debugGui := true }
  let g8 := if g7.dialogGui then g7 else { g7.emit [.loadDialogGui] with dialogGui := true }
  let g9 := if g8.containerGui then g8
    else { g8.emit [.loadContainerGui] with containerGui := true }
  { g9 with ticks := env.now, screen := .InGame }

/-- The C++ function `Game::loadNextModule`. -/
def loadNextModule (env : GameEnv) (g : Game) : Game :=
  let g1 := g.emit [.info "Awaiting async jobs completion", .jobsCancel, .jobsAwait]
  let g2 :=
    match g1.loadedModule with
    | some moduleId => g1.emit [.moduleSaveTo moduleId]
    | none => g1
  let g3 := loadModule env g2 g2.nextModule g2.nextEntry
  { g3 with nextModule := "", nextEntry := "" }

end Game

/-- The effects that save, replace or load a module. -/
def GameEffect.isModuleStep : GameEffect → Bool
  | .moduleSaveTo _ => true
  | .resLoadModule _ => true
  | .resFindModuleInfo => true
  | .moduleReplaced _ => true
  | .configureModule => true
  | .moduleLoad _ => true
  | .moduleLoadParty _ => true
  | .areaLoadState => true
  | .moduleInitGL => true
  | _ => false

/-! ## Local variables of objects (`Game::getLocalBoolean` and its siblings in `game.cpp`) -/

/-- The part of the member `_state` that holds the local variables: `localBooleans`, a
`map<uint32_t, map<int, bool>>`, and `localNumbers`, a `map<uint32_t, map<int, int>>`. A map
is the partial function from its keys to its values. -/
structure GameState where
  localBooleans : Nat → Option (Int → Option Bool)
  localNumbers : Nat → Option (Int → Option Int)

namespace GameState

/-- A state without local variables. -/
def empty : GameState :=
  { localBooleans := fun _ => none, localNumbers := fun _ => none }

/-- The C++ expression `m[objectId][index] = value` on a map of maps: both entries are created
when missing. -/
def assign {α : Type} (m : Nat → Option (Int → Option α)) (objectId : Nat) (index : Int)
    (value : α) : Nat → Option (Int → Option α) :=
  fun o =>
    if o = objectId then
      some (fun i => if i = index then some value else
        match m objectId with
        | some inner => inner i
        | none => none)
    else m o

/-- The C++ function `Game::getLocalBoolean`. -/
def getLocalBoolean (assertsEnabled : Bool) (s : GameState) (objectId : Nat) (index : Int) :
    Except Fault Bool :=
  if assertsEnabled && decide (index < 0) then .error .assertionFailed
  else
    match s.localBooleans objectId with
    | none => .ok false
    | some inner =>
      match inner index with
      | none => .ok false
      | some value => .ok value

/-- The C++ function `Game::getLocalNumber`. -/
def getLocalNumber (s : GameState) (objectId : Nat) (index : Int) : Int :=
  match s.localNumbers objectId with
  | none => 0
  | some inner =>
    match inner index with
    | none => 0
    | some value => value

/-- The C++ function `Game::setLocalBoolean`. -/
def setLocalBoolean (assertsEnabled : Bool) (s : GameState) (objectId : Nat) (index : Int)
    (value : Bool) : Except Fault GameState :=
  if assertsEnabled && decide (index < 0) then .error .assertionFailed
  else .ok { s with localBooleans := assign s.localBooleans objectId index value }

/-- The C++ function `Game::setLocalNumber`. Its assignment is
`_state.localBooleans[objectId][index] = value`: the `int` is converted to `bool` (true unless
zero) and stored among the booleans. -/
def setLocalNumber (assertsEnabled : Bool) (s : GameState) (objectId : Nat) (index : Int)
    (value : Int) : Except Fault GameState :=
  if assertsEnabled && decide (index < 0) then .error .assertionFailed
  else .ok { s with localBooleans := assign s.localBooleans objectId index (decide (value ≠ 0)) }

end GameState

/-! ## `ListBox` (`gui/control/listbox.cpp`) -/

/-- The ways the integer arithmetic of `ListBox` can go wrong. -/
inductive ArithFault where
  | divisionByZero
  | intOverflow
  deriving DecidableEq

/-- The largest value of the C++ type `int`. -/
def intMax : Int := 2 ^ 31 - 1

/-- The smallest value of the C++ type `int`. -/
def intMin : Int := -(2 ^ 31)

/-- The modulus of `size_t` arithmetic (64-bit). -/
def sizeModulus : Int := 2 ^ 64

/-- An `int` result: a value out of the range of `int` is an overflow. -/
def checkInt (i : Int) : Except ArithFault Int :=
  if intMin ≤ i ∧ i ≤ intMax then .ok i else .error .intOverflow

/-- The C++ comparison `size > count` of a `size_t` with an `int`: the `int` is converted to
`size_t`. -/
def sizeGreater (size : Int) (count : Int) : Bool :=
  decide (size % sizeModulus > count % sizeModulus)

/-- The C++ type `ListBox::Item`, reduced to tag and text. -/
structure ListBoxItem where
  tag : String
  text : String
  deriving DecidableEq

/-- The members of `ListBox` that `listbox.cpp` uses for scrolling. `protoItemHeight` is the
height of the extent of `_protoItem` when that pointer is set, `scrollBarVisible` the
visibility of `_scrollBar` when that pointer is set. -/
structure ListBox where
  items : List ListBoxItem
  itemOffset : Int
  slotCount : Int
  extentHeight : Int
  padding : Int
  protoItemHeight : Option Int
  scrollBarVisible : Option Bool
  deriving DecidableEq

namespace ListBox

/-- Modelled from the spec: the member initialisers of `ListBox` are in `listbox.h`, which is
missing; a new list box has no items and item offset 0, the other members are as given. -/
def initial (slotCount extentHeight padding : Int) : ListBox :=
  { items := [], itemOffset := 0, slotCount := slotCount, extentHeight := extentHeight
    padding := padding, protoItemHeight := none, scrollBarVisible := none }

/-- The C++ function `ListBox::updateItems`. -/
def updateItems (l : ListBox) : Except ArithFault ListBox :=
  match l.protoItemHeight with
  | none => .ok l
  | some height =>
    match checkInt (height + l.padding) with
    | .error e => .error e
    | .ok divisor =>
      if divisor = 0 then .error .divisionByZero
      else
        match checkInt (Int.tdiv l.extentHeight divisor) with
        | .error e => .error e
        | .ok slotCount =>
          .ok { l with
                slotCount := slotCount
                scrollBarVisible :=
                  l.scrollBarVisible.map (fun _ => sizeGreater l.items.length slotCount) }

/-- The C++ function `ListBox::clearItems`. -/
def clearItems (l : ListBox) : Except ArithFault ListBox :=
  updateItems { l with items := [], itemOffset := 0 }

/-- The C++ function `ListBox::add`. -/
def add (l : ListBox) (item : ListBoxItem) : Except ArithFault ListBox :=
  updateItems { l with items := l.items ++ [item] }

/-- The C++ function `ListBox::handleMouseWheel`. In `_items.size() - _itemOffset > _slotCount`
both `int` operands are converted to `size_t`. -/
def handleMouseWheel (l : ListBox) (_x y : Int) : Except ArithFault (Bool × ListBox) :=
  if y < 0 then
    if sizeGreater ((l.items.length : Int) - l.itemOffset) l.slotCount then
      match checkInt (l.itemOffset + 1) with
      | .error e => .error e
      | .ok offset => .ok (true, { l with itemOffset := offset })
    else .ok (true, l)
  else if y > 0 then
    if l.itemOffset > 0 then .ok (true, { l with itemOffset := l.itemOffset - 1 })
    else .ok (true, l)
  else .ok (false, l)

/-- The values of the members fit their C++ types: `int` for the offset and the slot count,
`size_t` for the number of items. -/
def WellTyped (l : ListBox) : Prop :=
  intMin ≤ l.itemOffset ∧ l.itemOffset ≤ intMax ∧
  intMin ≤ l.slotCount ∧ l.slotCount ≤ intMax ∧
  (l.items.length : Int) < sizeModulus

/-- The offset is within the item list: `0 <= _itemOffset <= item count`. -/
def OffsetInRange (l : ListBox) : Prop :=
  0 ≤ l.itemOffset ∧ l.itemOffset ≤ (l.items.length : Int)

end ListBox

/-! ## Observations on traces and states -/

/-- The events `Area::advanceCreatureOnPath` can add to the trace. -/
def Event.isStep : Event → Bool
  | .selectNextPathPoint => true
  | .moveCreatureTowards _ _ => true
  | _ => false

/-- Whether an event is a call of `Area::advanceCreatureOnPath`. -/
def Event.isAdvance : Event → Bool
  | .advanceCreatureOnPath _ => true
  | _ => false

/-- Whether an event is a call of `Area::updateCreaturePath`. -/
def Event.isUpdatePath : Event → Bool
  | .updateCreaturePath _ => true
  | _ => false

/-- How many calls of `Area::advanceCreatureOnPath` a trace holds. -/
def advanceCount (t : List Event) : Nat :=
  t.countP Event.isAdvance

/-- How many calls of `Area::updateCreaturePath` a trace holds. -/
def updatePathCount (t : List Event) : Nat :=
  t.countP Event.isUpdatePath

/-- The state of the pending-update flag and of the job queue go together: no job and a clear
flag, or one job and a set flag. -/
def FlagMatchesQueue (w : World) : Prop :=
  (w.jobs = [] ∧ w.creature.pathUpdating = false) ∨
  (∃ job, w.jobs = [job] ∧ w.creature.pathUpdating = true)

/-! ## Concrete inputs used to evaluate the embedding -/

/-- The origin of the coordinate system. -/
def origin0 : Vec3 := { x := 0, y := 0, z := 0 }

/-- An environment with assertions compiled in, no dialog callback, scripts without effect on
the creature, a motion step that never moves and a navigation mesh that finds nothing. -/
def envDebug : Env :=
  { assertsEnabled := true
    hasStartDialog := false
    runScript := fun _ _ c => c
    moveCreatureTowards := fun c _ _ => (false, c.position)
    findPath := fun _ _ => [] }

/-- The environment `envDebug` built with `NDEBUG`: assertions compiled out. -/
def envRelease : Env :=
  { envDebug with assertsEnabled := false }

/-- A `DoCommand` action running program 7. -/
def actDoCommand : Action :=
  { type := .DoCommand, object := .null, point := origin0, distance := 0
    context := { savedState := some 7, callerId := 0 }, resRef := "" }

/-- A `Follow` action whose target is gone. -/
def actFollowNull : Action :=
  { type := .Follow, object := .null, point := origin0, distance := 1
    context := { savedState := none, callerId := 0 }, resRef := "" }

/-- A `MoveToPoint` action towards the point `(3, 4, 0)`, without a target object. -/
def actMoveToPoint : Action :=
  { type := .MoveToPoint, object := .null, point := { x := 3, y := 4, z := 0 }, distance := 1
    context := { savedState := none, callerId := 0 }, resRef := "" }

/-- A creature with id 5 at the origin, holding the given action stack, without a path. -/
def creatureWith (actions : List Action) : Creature :=
  { id := 5, position := origin0, actions := actions, path := none, pathUpdating := false
    movementType := .None }

/-- A world around `creatureWith actions`: no job submitted, empty trace. -/
def worldWith (actions : List Action) : World :=
  { creature := creatureWith actions, jobs := [], trace := [] }

/-- The point `(10, 0, 0)`. -/
def east10 : Vec3 := { x := 10, y := 0, z := 0 }

/-- The point `(20, 0, 0)`. -/
def east20 : Vec3 := { x := 20, y := 0, z := 0 }

/-- A path to `east10` without waypoints, found at clock value 0. -/
def pathEast10 : Path :=
  { destination := east10, points := [], timeFound := 0, pointIdx := 0 }

/-- A world whose creature stands at the origin and holds the path `pathEast10`; the
pending-update flag is as given. -/
def worldOnPath (pending : Bool) : World :=
  { creature :=
      { id := 5, position := origin0, actions := [], path := some pathEast10
        pathUpdating := pending, movementType := .None }
    jobs := [], trace := [] }

/-- The point `(5, 0, 0)`, half way from the origin to `east10`. -/
def east5 : Vec3 := { x := 5, y := 0, z := 0 }

/-- The environment `envDebug` with a motion step that takes the creature to `east5` and
answers `moved`. -/
def envStep (moved : Bool) : Env :=
  { envDebug with moveCreatureTowards := fun _ _ _ => (moved, east5) }

/-- A path to `east20` through the waypoint `east10`, cursor on the waypoint. -/
def pathTwoLegs : Path :=
  { destination := east20, points := [east10], timeFound := 0, pointIdx := 0 }

/-- A world whose creature stands at the origin and holds the path `pathTwoLegs`. -/
def worldTwoLegs : World :=
  { creature :=
      { id := 5, position := origin0, actions := [], path := some pathTwoLegs
        pathUpdating := false, movementType := .None }
    jobs := [], trace := [] }

/-- A `StartConversation` action for the dialog `"dlg01"`. -/
def actStartConversation : Action :=
  { type := .StartConversation, object := .null, point := origin0, distance := 0
    context := { savedState := none, callerId := 0 }, resRef := "dlg01" }

/-- An action of a kind `Area::updateCreature` has no case for (enumerator value 9). -/
def actOther : Action :=
  { type := .Other 9, object := .null, point := origin0, distance := 0
    context := { savedState := none, callerId := 0 }, resRef := "" }

/-- The environment `envDebug` with the dialog callback set. -/
def envDialog : Env :=
  { envDebug with hasStartDialog := true }

/-- A game with module 2 loaded, a transition to `"m02"` requested and a factory that has
handed out the ids 2, 3 and 4. -/
def gameInTransition : Game :=
  { loadedModule := some 2, nextModule := "m02", nextEntry := "wp1"
    objectFactory := { counter := 5 }, music := true, hud := true, debugGui := true
    dialogGui := true, containerGui := true, ticks := 0, screen := .InGame, effects := [] }

/-- A game environment: no area has music, the clock shows 100. -/
def gameEnvSilent : GameEnv :=
  { areaMusic := fun _ => "", now := 100 }

/-- A list box showing two slots of three items, scrolled to the top. -/
def listBoxThree : ListBox :=
  { items := [{ tag := "a", text := "A" }, { tag := "b", text := "B" }, { tag := "c", text := "C" }]
    itemOffset := 0, slotCount := 2, extentHeight := 40, padding := 3
    protoItemHeight := some 17, scrollBarVisible := some true }

/-! ## Lemmas on `Area::updateCreature`, branch by branch -/

/-- The `DoCommand` branch: the script runs once on the creature and nothing else happens. -/
theorem updateCreature_doCommand (env : Env) (now : Nat) (w : World) (dt : ℚ) (a : Action)
    (rest : List Action) (program : Nat) (hact : w.creature.actions = a :: rest)
    (htype : a.type = .DoCommand) (hstate : a.context.savedState = some program) :
    updateCreature env now w dt =
      .ok { w with
            creature :=
              env.runScript program { a.context with callerId := w.creature.id } w.creature
            trace :=
              w.trace ++ [.scriptRun program { a.context with callerId := w.creature.id }] } := by
  simp [updateCreature, Creature.hasActions, Creature.currentAction, hact, htype, hstate]

/-- The movement branch stops with a fault when a `Follow` action has no target. -/
theorem resolveDestination_follow_null (env : Env) (a : Action) (htype : a.type = .Follow)
    (hobj : a.object = .null) :
    resolveDestination env a =
      .error (if env.assertsEnabled then .assertionFailed else .nullDereference) := by
  cases hdbg : env.assertsEnabled <;>
    simp [resolveDestination, htype, hobj, ObjectRef.asSpatial, hdbg]

/-- A fault of `resolveDestination` is the fault of `Area::updateCreature`. -/
theorem updateCreature_move_fault (env : Env) (now : Nat) (w : World) (dt : ℚ) (a : Action)
    (rest : List Action) (e : Fault) (hact : w.creature.actions = a :: rest)
    (htype : a.type = .MoveToPoint ∨ a.type = .Follow)
    (hres : resolveDestination env a = .error e) :
    updateCreature env now w dt = .error e := by
  rcases htype with htype | htype <;>
    simp [updateCreature, Creature.hasActions, Creature.currentAction, hact, htype, hres]

/-- The movement branch, once the destination is resolved. -/
theorem updateCreature_move_ok (env : Env) (now : Nat) (w : World) (dt : ℚ) (a : Action)
    (rest : List Action) (dest : Vec3) (hact : w.creature.actions = a :: rest)
    (htype : a.type = .MoveToPoint ∨ a.type = .Follow)
    (hres : resolveDestination env a = .ok dest) :
    updateCreature env now w dt =
      match navigateCreature env now (w.log (.navigateCreature dest a.distance dt))
          dest a.distance dt with
      | .error e => .error e
      | .ok (reached, w1) =>
        if reached && a.type = .MoveToPoint then .ok w1.popCurrentAction else .ok w1 := by
  rcases htype with htype | htype <;>
    simp [updateCreature, Creature.hasActions, Creature.currentAction, hact, htype, hres]

/-! ## Lemmas on `Area::advanceCreatureOnPath` -/

/-- With the cursor within the waypoint list, or at its end, the sub-target exists. -/
theorem pathTarget_ok (p : Path) (hidx : p.pointIdx ≤ p.points.length) :
    ∃ d, pathTarget p = .ok d := by
  unfold pathTarget
  by_cases h : p.pointIdx = p.points.length
  · exact ⟨p.destination, by simp [h]⟩
  · have hlt : p.pointIdx < p.points.length := lt_of_le_of_ne hidx h
    refine ⟨p.points[p.pointIdx], ?_⟩
    simp [h, List.getElem?_eq_getElem hlt]

/-- With a cached path whose cursor does not exceed the waypoint count,
`Area::advanceCreatureOnPath` returns. -/
theorem advanceCreatureOnPath_ok (env : Env) (w : World) (dt : ℚ) (p : Path)
    (hpath : w.creature.path = some p) (hidx : p.pointIdx ≤ p.points.length) :
    ∃ w1, advanceCreatureOnPath env w dt = .ok w1 := by
  obtain ⟨d, hd⟩ := pathTarget_ok p hidx
  unfold advanceCreatureOnPath
  simp only [hpath, hd]
  split_ifs <;> exact ⟨_, rfl⟩

/-- What `Area::advanceCreatureOnPath` leaves alone: the action stack, the pending-update
flag and the submitted jobs; the trace grows by motion events only. -/
theorem advanceCreatureOnPath_frame (env : Env) (w w1 : World) (dt : ℚ)
    (h : advanceCreatureOnPath env w dt = .ok w1) :
    w1.creature.actions = w.creature.actions ∧
    w1.creature.pathUpdating = w.creature.pathUpdating ∧
    w1.jobs = w.jobs ∧
    ∃ l, w1.trace = w.trace ++ l ∧ ∀ e ∈ l, e.isStep = true := by
  unfold advanceCreatureOnPath at h
  cases hp : w.creature.path with
  | none => simp [hp] at h
  | some p =>
    cases ht : pathTarget p with
    | error e => simp [hp, ht] at h
    | ok d =>
      simp only [hp, ht] at h
      split_ifs at h with h1 h2
      · cases h
        exact ⟨rfl, rfl, rfl, [.selectNextPathPoint], rfl, by simp [Event.isStep]⟩
      · cases h
        exact ⟨rfl, rfl, rfl, [.moveCreatureTowards d dt, .selectNextPathPoint],
          by simp [World.log], by simp [Event.isStep]⟩
      · cases h
        exact ⟨rfl, rfl, rfl, [.moveCreatureTowards d dt], rfl, by simp [Event.isStep]⟩

/-! ## Lemmas on `Area::navigateCreature`, branch by branch -/

/-- Within the arrival distance: the movement type becomes `None`, the answer is `true`. -/
theorem navigateCreature_near (env : Env) (now : Nat) (w : World) (dest : Vec3)
    (distance dt : ℚ) (hnear : distance2 w.creature.position dest ≤ distance) :
    navigateCreature env now w dest distance dt =
      .ok (true, { w with creature := { w.creature with movementType := .None } }) := by
  simp [navigateCreature, hnear, Creature.setMovementType]

/-- Out of the arrival distance, without a cached path: a path update is requested. -/
theorem navigateCreature_far_no_path (env : Env) (now : Nat) (w : World) (dest : Vec3)
    (distance dt : ℚ) (hfar : ¬ distance2 w.creature.position dest ≤ distance)
    (hpath : w.creature.path = none) :
    navigateCreature env now w dest distance dt =
      .ok (false, updateCreaturePath (w.log (.updateCreaturePath dest)) dest) := by
  simp [navigateCreature, hfar, hpath]

/-- Out of the arrival distance, with a cached path that is kept: the creature advances on
it. -/
theorem navigateCreature_far_keep (env : Env) (now : Nat) (w : World) (dest : Vec3)
    (distance dt : ℚ) (p : Path) (hfar : ¬ distance2 w.creature.position dest ≤ distance)
    (hpath : w.creature.path = some p)
    (hkeep : p.destination = dest ∨ u32sub now p.timeFound ≤ kKeepPathDuration) :
    navigateCreature env now w dest distance dt =
      match advanceCreatureOnPath env (w.log (.advanceCreatureOnPath dt)) dt with
      | .error e => .error e
      | .ok w1 => .ok (false, w1) := by
  simp [navigateCreature, hfar, hpath, hkeep]

/-- Out of the arrival distance, with a cached path that is not kept: a path update is
requested. -/
theorem navigateCreature_far_stale (env : Env) (now : Nat) (w : World) (dest : Vec3)
    (distance dt : ℚ) (p : Path) (hfar : ¬ distance2 w.creature.position dest ≤ distance)
    (hpath : w.creature.path = some p)
    (hstale : ¬ (p.destination = dest ∨ u32sub now p.timeFound ≤ kKeepPathDuration)) :
    navigateCreature env now w dest distance dt =
      .ok (false, updateCreaturePath (w.log (.updateCreaturePath dest)) dest) := by
  simp only [navigateCreature, hfar, hpath, hstale, if_false]

/-- What `Area::updateCreaturePath` does to the trace and the action stack: the stack is kept,
the trace grows by at most the `enqueue` of the new job. -/
theorem updateCreaturePath_frame (w : World) (dest : Vec3) :
    (updateCreaturePath w dest).creature.actions = w.creature.actions ∧
    (updateCreaturePath w dest).creature.path = w.creature.path ∧
    (updateCreaturePath w dest).creature.position = w.creature.position ∧
    (updateCreaturePath w dest).creature.movementType = w.creature.movementType ∧
    ∃ l, (updateCreaturePath w dest).trace = w.trace ++ l ∧
      ∀ e ∈ l, e = .enqueue { dest := dest } := by
  unfold updateCreaturePath
  split_ifs
  · exact ⟨rfl, rfl, rfl, rfl, [], by simp, by simp⟩
  · exact ⟨rfl, rfl, rfl, rfl, [.enqueue { dest := dest }], rfl, by simp⟩

/-- The answer of `Area::navigateCreature`, when there is one, tells whether the creature is
within the arrival distance. -/
theorem navigateCreature_answer (env : Env) (now : Nat) (w wn : World) (dest : Vec3)
    (distance dt : ℚ) (b : Bool) (h : navigateCreature env now w dest distance dt = .ok (b, wn)) :
    b = true ↔ distance2 w.creature.position dest ≤ distance := by
  by_cases hnear : distance2 w.creature.position dest ≤ distance
  · rw [navigateCreature_near env now w dest distance dt hnear] at h
    injection h with h
    injection h with hb _
    simp [← hb, hnear]
  · unfold navigateCreature at h
    simp only [hnear, if_false] at h
    have hb : b = false := by
      split at h
      · split_ifs at h
        · split at h
          · cases h
          · injection h with h
            injection h with hb _
            exact hb.symm
        · injection h with h
          injection h with hb _
          exact hb.symm
      · injection h with h
        injection h with hb _
        exact hb.symm
    simp [hb, hnear]

/-- Out of the arrival distance `Area::navigateCreature` returns, with answer `false`, unless
the cursor of the cached path exceeds the waypoint count. -/
theorem navigateCreature_far_ok (env : Env) (now : Nat) (w : World) (dest : Vec3)
    (distance dt : ℚ) (hfar : ¬ distance2 w.creature.position dest ≤ distance)
    (hidx : ∀ p, w.creature.path = some p → p.pointIdx ≤ p.points.length) :
    ∃ wn, navigateCreature env now w dest distance dt = .ok (false, wn) := by
  cases hp : w.creature.path with
  | none => exact ⟨_, navigateCreature_far_no_path env now w dest distance dt hfar hp⟩
  | some p =>
    by_cases hkeep : p.destination = dest ∨ u32sub now p.timeFound ≤ kKeepPathDuration
    · obtain ⟨w1, h1⟩ := advanceCreatureOnPath_ok env (w.log (.advanceCreatureOnPath dt)) dt p
        hp (hidx p hp)
      refine ⟨w1, ?_⟩
      rw [navigateCreature_far_keep env now w dest distance dt p hfar hp hkeep, h1]
    · exact ⟨_, navigateCreature_far_stale env now w dest distance dt p hfar hp hkeep⟩

/-- A predicate that is false on motion events counts nothing in a list of motion events. -/
theorem countP_steps (q : Event → Bool) (hq : ∀ e, e.isStep = true → q e = false)
    (l : List Event) (hall : ∀ e ∈ l, e.isStep = true) : l.countP q = 0 := by
  rw [List.countP_eq_zero]
  intro e he
  simp [hq e (hall e he)]

/-- On values of a 32-bit clock that has not run backwards, the `uint32_t` difference is the
elapsed time. -/
theorem u32sub_eq_sub (now t : Nat) (hle : t ≤ now) (hnow : now < 2 ^ 32) :
    u32sub now t = now - t := by
  unfold u32sub
  have ht : t < 2 ^ 32 := lt_of_le_of_lt hle hnow
  rw [Nat.mod_eq_of_lt hnow, Nat.mod_eq_of_lt ht]
  have h1 : now + 2 ^ 32 - t = (now - t) + 2 ^ 32 := by omega
  rw [h1, Nat.add_mod_right]
  exact Nat.mod_eq_of_lt (by omega)

/-- The traces of the two branches `Area::navigateCreature` has out of the arrival distance:
after a kept path one more `advanceCreatureOnPath`, after a path update one more
`updateCreaturePath`. -/
theorem navigateCreature_far_counts (env : Env) (now : Nat) (w wn : World) (dest : Vec3)
    (distance dt : ℚ) (b : Bool)
    (hfar : ¬ distance2 w.creature.position dest ≤ distance)
    (h : navigateCreature env now w dest distance dt = .ok (b, wn)) :
    ((∃ p, w.creature.path = some p ∧
        (p.destination = dest ∨ u32sub now p.timeFound ≤ kKeepPathDuration)) →
      advanceCount wn.trace = advanceCount w.trace + 1 ∧
      updatePathCount wn.trace = updatePathCount w.trace ∧
      wn.jobs = w.jobs ∧ wn.creature.pathUpdating = w.creature.pathUpdating) ∧
    ((¬ ∃ p, w.creature.path = some p ∧
        (p.destination = dest ∨ u32sub now p.timeFound ≤ kKeepPathDuration)) →
      updatePathCount wn.trace = updatePathCount w.trace + 1 ∧
      advanceCount wn.trace = advanceCount w.trace ∧
      wn.creature.path = w.creature.path ∧ wn.creature.position = w.creature.position ∧
      wn.creature.movementType = w.creature.movementType) := by
  have hupd : navigateCreature env now w dest distance dt =
      .ok (false, updateCreaturePath (w.log (.updateCreaturePath dest)) dest) →
      updatePathCount wn.trace = updatePathCount w.trace + 1 ∧
      advanceCount wn.trace = advanceCount w.trace ∧
      wn.creature.path = w.creature.path ∧ wn.creature.position = w.creature.position ∧
      wn.creature.movementType = w.creature.movementType := by
    intro hu
    rw [hu] at h
    injection h with h
    injection h with _ h
    subst h
    obtain ⟨_, hp, hpos, hmt, l, hl, hall⟩ :=
      updateCreaturePath_frame (w.log (.updateCreaturePath dest)) dest
    have hu0 : l.countP Event.isUpdatePath = 0 := by
      rw [List.countP_eq_zero]
      intro e he
      rw [hall e he]
      simp [Event.isUpdatePath]
    have ha0 : l.countP Event.isAdvance = 0 := by
      rw [List.countP_eq_zero]
      intro e he
      rw [hall e he]
      simp [Event.isAdvance]
    refine ⟨?_, ?_, hp, hpos, hmt⟩
    · unfold updatePathCount
      rw [hl]
      simp [World.log, List.countP_append, hu0, Event.isUpdatePath]
    · unfold advanceCount
      rw [hl]
      simp [World.log, List.countP_append, ha0, Event.isAdvance]
  constructor
  · rintro ⟨p, hp, hkeep⟩
    rw [navigateCreature_far_keep env now w dest distance dt p hfar hp hkeep] at h
    cases ha : advanceCreatureOnPath env (w.log (.advanceCreatureOnPath dt)) dt with
    | error e => simp [ha] at h
    | ok w1 =>
      simp only [ha] at h
      injection h with h
      injection h with _ h
      subst h
      obtain ⟨_, hflag, hjobs, l, hl, hall⟩ := advanceCreatureOnPath_frame env _ _ dt ha
      have ha0 := countP_steps Event.isAdvance
        (fun e he => by cases e <;> simp_all [Event.isStep, Event.isAdvance]) l hall
      have hu0 := countP_steps Event.isUpdatePath
        (fun e he => by cases e <;> simp_all [Event.isStep, Event.isUpdatePath]) l hall
      refine ⟨?_, ?_, hjobs, hflag⟩
      · unfold advanceCount
        rw [hl]
        simp [World.log, List.countP_append, ha0, Event.isAdvance]
      · unfold updatePathCount
        rw [hl]
        simp [World.log, List.countP_append, hu0, Event.isUpdatePath]
  · intro hno
    rcases hp : w.creature.path with _ | p
    · exact hp ▸ hupd (navigateCreature_far_no_path env now w dest distance dt hfar hp)
    · have hstale : ¬ (p.destination = dest ∨ u32sub now p.timeFound ≤ kKeepPathDuration) :=
        fun hk => hno ⟨p, hp, hk⟩
      exact hp ▸ hupd (navigateCreature_far_stale env now w dest distance dt p hfar hp hstale)

/-- Every step of an interleaving keeps the flag and the queue together. -/
theorem pathStep_flagMatchesQueue (env : Env) (w : World) (step : PathStep)
    (h : FlagMatchesQueue w) : FlagMatchesQueue (pathStep env w step) := by
  cases step with
  | request dest =>
    rcases h with ⟨hj, hf⟩ | ⟨job, hj, hf⟩
    · right
      exact ⟨{ dest := dest }, by
        simp [pathStep, updateCreaturePath, Creature.isPathUpdating, Creature.setPathUpdating, hj,
          hf]⟩
    · right
      exact ⟨job, by simp [pathStep, updateCreaturePath, Creature.isPathUpdating, hj, hf]⟩
  | complete now =>
    rcases h with ⟨hj, hf⟩ | ⟨job, hj, _⟩
    · left
      simp [pathStep, completeJob, hj, hf]
    · left
      simp [pathStep, completeJob, hj, runJob, Creature.setPath]

/-- Every interleaving keeps the flag and the queue together. -/
theorem runPathSteps_flagMatchesQueue (env : Env) (steps : List PathStep) :
    ∀ w, FlagMatchesQueue w → FlagMatchesQueue (runPathSteps env w steps) := by
  induction steps with
  | nil => intro w h; exact h
  | cons step steps ih =>
    intro w h
    exact ih (pathStep env w step) (pathStep_flagMatchesQueue env w step h)

/-! ## More lemmas on `Area::advanceCreatureOnPath` and `Area::selectNextPathPoint` -/

/-- With the cursor on a waypoint, the sub-target is that waypoint. -/
theorem pathTarget_waypoint (p : Path) (hlt : p.pointIdx < p.points.length) :
    pathTarget p = .ok (p.points.get ⟨p.pointIdx, hlt⟩) := by
  have hne : p.pointIdx ≠ p.points.length := Nat.ne_of_lt hlt
  simp [pathTarget, hne, List.getElem?_eq_getElem hlt]

/-- With the cursor at the waypoint count, the sub-target is the destination. -/
theorem pathTarget_destination (p : Path) (heq : p.pointIdx = p.points.length) :
    pathTarget p = .ok p.destination := by
  simp [pathTarget, heq]

/-- What `Area::selectNextPathPoint` does to the cursor: the waypoints are kept, the cursor
does not decrease, grows by at most one, and stays within the waypoint count if it was. -/
theorem selectNextPathPoint_cursor (p : Path) :
    (selectNextPathPoint p).points = p.points ∧
    (selectNextPathPoint p).destination = p.destination ∧
    p.pointIdx ≤ (selectNextPathPoint p).pointIdx ∧
    (selectNextPathPoint p).pointIdx ≤ p.pointIdx + 1 ∧
    (p.pointIdx ≤ p.points.length → (selectNextPathPoint p).pointIdx ≤ p.points.length) ∧
    (p.pointIdx < p.points.length → (selectNextPathPoint p).pointIdx = p.pointIdx + 1) ∧
    (p.pointIdx = p.points.length → (selectNextPathPoint p).pointIdx = p.points.length) := by
  by_cases h : p.pointIdx < p.points.length
  · have hs : selectNextPathPoint p = { p with pointIdx := p.pointIdx + 1 } := by
      simp [selectNextPathPoint, h]
    rw [hs]
    refine ⟨rfl, rfl, Nat.le_succ _, Nat.le_refl _, fun _ => h, fun _ => rfl, fun heq => ?_⟩
    omega
  · have hs : selectNextPathPoint p = p := by
      simp [selectNextPathPoint, h]
    rw [hs]
    exact ⟨rfl, rfl, Nat.le_refl _, Nat.le_succ _, fun hle => hle, fun hlt => absurd hlt h,
      fun heq => heq⟩

/-- Within the closeness threshold of the sub-target `Area::advanceCreatureOnPath` selects the
next path point and does nothing else. -/
theorem advanceCreatureOnPath_close (env : Env) (w : World) (dt : ℚ) (p : Path) (target : Vec3)
    (hpath : w.creature.path = some p) (htarget : pathTarget p = .ok target)
    (hclose : distance2 w.creature.position target ≤ 1) :
    advanceCreatureOnPath env w dt =
      .ok { creature := { w.creature with path := some (selectNextPathPoint p) }
            jobs := w.jobs
            trace := w.trace ++ [.selectNextPathPoint] } := by
  simp [advanceCreatureOnPath, hpath, htarget, hclose, World.log]

/-- Out of the closeness threshold, after a motion step answered with `true`,
`Area::advanceCreatureOnPath` selects the next path point and sets the movement type `Run`. -/
theorem advanceCreatureOnPath_far_moved (env : Env) (w : World) (dt : ℚ) (p : Path)
    (target : Vec3) (hpath : w.creature.path = some p) (htarget : pathTarget p = .ok target)
    (hfar : ¬ distance2 w.creature.position target ≤ 1)
    (hmoved : (env.moveCreatureTowards w.creature target dt).1 = true) :
    advanceCreatureOnPath env w dt =
      .ok { creature :=
              { w.creature with
                position := (env.moveCreatureTowards w.creature target dt).2
                path := some (selectNextPathPoint p)
                movementType := .Run }
            jobs := w.jobs
            trace := w.trace ++ [.moveCreatureTowards target dt, .selectNextPathPoint] } := by
  simp [advanceCreatureOnPath, hpath, htarget, hfar, hmoved, World.log,
    Creature.setMovementType]

/-- Out of the closeness threshold, after a motion step answered with `false`,
`Area::advanceCreatureOnPath` sets the movement type `None` and leaves the path alone. -/
theorem advanceCreatureOnPath_far_blocked (env : Env) (w : World) (dt : ℚ) (p : Path)
    (target : Vec3) (hpath : w.creature.path = some p) (htarget : pathTarget p = .ok target)
    (hfar : ¬ distance2 w.creature.position target ≤ 1)
    (hblocked : (env.moveCreatureTowards w.creature target dt).1 = false) :
    advanceCreatureOnPath env w dt =
      .ok { creature :=
              { w.creature with
                position := (env.moveCreatureTowards w.creature target dt).2
                movementType := .None }
            jobs := w.jobs
            trace := w.trace ++ [.moveCreatureTowards target dt] } := by
  simp [advanceCreatureOnPath, hpath, htarget, hfar, hblocked, World.log,
    Creature.setMovementType]

/-- The path after a returning `Area::advanceCreatureOnPath` is the path before or that path
with the next point selected. -/
theorem advanceCreatureOnPath_path (env : Env) (w w1 : World) (dt : ℚ) (p : Path)
    (hpath : w.creature.path = some p) (h : advanceCreatureOnPath env w dt = .ok w1) :
    w1.creature.path = some p ∨ w1.creature.path = some (selectNextPathPoint p) := by
  cases ht : pathTarget p with
  | error e => simp [advanceCreatureOnPath, hpath, ht] at h
  | ok target =>
    by_cases hclose : distance2 w.creature.position target ≤ 1
    · rw [advanceCreatureOnPath_close env w dt p target hpath ht hclose] at h
      injection h with h
      subst h
      exact Or.inr rfl
    · cases hm : (env.moveCreatureTowards w.creature target dt).1 with
      | true =>
        rw [advanceCreatureOnPath_far_moved env w dt p target hpath ht hclose hm] at h
        injection h with h
        subst h
        exact Or.inr rfl
      | false =>
        rw [advanceCreatureOnPath_far_blocked env w dt p target hpath ht hclose hm] at h
        injection h with h
        subst h
        exact Or.inl hpath

/-! ## Lemmas on `Game::loadModule` and `ObjectFactory` -/

/-- The effects of `Game::loadModule`: the resources of the module are loaded, the module is
replaced by a new one and loaded, then music and GUI follow as the state asks. -/
theorem loadModule_effects (env : GameEnv) (g : Game) (name entry : String) :
    (Game.loadModule env g name entry).effects =
      g.effects ++
        [.info ("Game: load module: " ++ name), .resLoadModule name, .resFindModuleInfo,
          .moduleReplaced g.objectFactory.counter, .configureModule, .moduleLoad name,
          .moduleLoadParty entry, .areaLoadState, .moduleInitGL] ++
        ((if g.music then [GameEffect.musicStop] else []) ++
          (if (env.areaMusic name).isEmpty then [] else [.playMusic (env.areaMusic name)]) ++
          (if g.hud then [] else [.loadHUD]) ++
          (if g.debugGui then [] else [.loadDebugGui]) ++
          (if g.dialogGui then [] else [.loadDialogGui]) ++
          (if g.containerGui then [] else [.loadContainerGui])) := by
  obtain ⟨lm, nm, ne, fac, music, hud, dbg, dlg, cont, ticks, screen, effects⟩ := g
  cases music <;> cases hud <;> cases dbg <;> cases dlg <;> cases cont <;>
    cases hm : (env.areaMusic name).isEmpty <;>
    simp [Game.loadModule, Game.emit, ObjectFactory.newModule, ObjectFactory.postIncrement, hm]

/-- A returning `ListBox::updateItems` keeps the items and the item offset. -/
theorem updateItems_frame (l l1 : ListBox) (h : l.updateItems = .ok l1) :
    l1.items = l.items ∧ l1.itemOffset = l.itemOffset := by
  unfold ListBox.updateItems at h
  split at h
  · injection h with h
    subst h
    exact ⟨rfl, rfl⟩
  · split at h
    · cases h
    · split_ifs at h
      split at h
      · cases h
      · injection h with h
        subst h
        exact ⟨rfl, rfl⟩

/-- Without a proto item `ListBox::updateItems` returns its list box as it is. -/
theorem updateItems_no_proto (l : ListBox) (h : l.protoItemHeight = none) :
    l.updateItems = .ok l := by
  simp [ListBox.updateItems, h]

/-- On members that fit their types, with the offset within the item list and a slot count
that is not negative, the `size_t` comparison of `ListBox::handleMouseWheel` says that more
than `_slotCount` items remain from the offset. -/
theorem sizeGreater_remaining (l : ListBox) (htyped : l.WellTyped) (hslot : 0 ≤ l.slotCount)
    (hinv : l.OffsetInRange) :
    sizeGreater ((l.items.length : Int) - l.itemOffset) l.slotCount = true ↔
      l.slotCount < (l.items.length : Int) - l.itemOffset := by
  obtain ⟨_, _, _, hs, hlen⟩ := htyped
  obtain ⟨h0, h1⟩ := hinv
  unfold sizeModulus at hlen
  unfold intMax at hs
  simp only [sizeGreater, sizeModulus, decide_eq_true_eq]
  constructor <;> intro h <;> omega

/-- With a proto item whose height plus the padding is an `int` other than zero, and a
quotient that is an `int`, `ListBox::updateItems` returns. -/
theorem updateItems_ok (l : ListBox) (height : Int) (hproto : l.protoItemHeight = some height)
    (hdiv : intMin ≤ height + l.padding ∧ height + l.padding ≤ intMax)
    (hnz : height + l.padding ≠ 0)
    (hquot : intMin ≤ Int.tdiv l.extentHeight (height + l.padding) ∧
      Int.tdiv l.extentHeight (height + l.padding) ≤ intMax) :
    ∃ l1, l.updateItems = .ok l1 := by
  simp [ListBox.updateItems, hproto, checkInt, hdiv, hnz, hquot]

/-- What a returning `ListBox::handleMouseWheel` does to the offset, on members that fit their
types, with the offset within the item list and a slot count that is not negative. -/
theorem handleMouseWheel_offset (l l1 : ListBox) (x y : Int) (moved : Bool)
    (htyped : l.WellTyped) (hslot : 0 ≤ l.slotCount) (hinv : l.OffsetInRange)
    (h : l.handleMouseWheel x y = .ok (moved, l1)) :
    l1.items = l.items ∧
    ((y < 0 ∧ l.slotCount < (l.items.length : Int) - l.itemOffset) →
      l1.itemOffset = l.itemOffset + 1) ∧
    ((0 < y ∧ 0 < l.itemOffset) → l1.itemOffset = l.itemOffset - 1) ∧
    (¬ (y < 0 ∧ l.slotCount < (l.items.length : Int) - l.itemOffset) →
      ¬ (0 < y ∧ 0 < l.itemOffset) → l1.itemOffset = l.itemOffset) := by
  have hrem := sizeGreater_remaining l htyped hslot hinv
  unfold ListBox.handleMouseWheel at h
  by_cases hy : y < 0
  · simp only [hy, if_true] at h
    by_cases hg : sizeGreater ((l.items.length : Int) - l.itemOffset) l.slotCount = true
    · simp only [hg, if_true] at h
      have hlt := hrem.mp hg
      unfold checkInt at h
      split_ifs at h with hr
      injection h with h
      injection h with _ h
      subst h
      exact ⟨rfl, fun _ => rfl, fun hc => by omega, fun hc => absurd ⟨hy, hlt⟩ hc⟩
    · simp only [hg] at h
      injection h with h
      injection h with _ h
      subst h
      have hnlt : ¬ l.slotCount < (l.items.length : Int) - l.itemOffset := fun hc =>
        hg (hrem.mpr hc)
      exact ⟨rfl, fun hc => absurd hc.2 hnlt, fun hc => by omega, fun _ _ => rfl⟩
  · simp only [hy, if_false] at h
    by_cases hy2 : y > 0
    · simp only [hy2, if_true] at h
      by_cases ho : l.itemOffset > 0
      · simp only [ho, if_true] at h
        injection h with h
        injection h with _ h
        subst h
        exact ⟨rfl, fun hc => absurd hc.1 hy, fun _ => rfl, fun _ hc => absurd ⟨hy2, ho⟩ hc⟩
      · simp only [ho, if_false] at h
        injection h with h
        injection h with _ h
        subst h
        exact ⟨rfl, fun hc => absurd hc.1 hy, fun hc => absurd hc.2 ho, fun _ _ => rfl⟩
    · simp only [hy2, if_false] at h
      injection h with h
      injection h with _ h
      subst h
      exact ⟨rfl, fun hc => absurd hc.1 hy, fun hc => absurd hc.1 hy2, fun _ _ => rfl⟩

/-- With at most `INT_MAX` items `ListBox::handleMouseWheel` returns, on members that fit
their types and an offset within the item list. -/
theorem handleMouseWheel_ok (l : ListBox) (x y : Int) (hinv : l.OffsetInRange)
    (hlen : (l.items.length : Int) ≤ intMax) :
    ∃ moved l1, l.handleMouseWheel x y = .ok (moved, l1) := by
  obtain ⟨h0, h1⟩ := hinv
  unfold ListBox.handleMouseWheel
  by_cases hy : y < 0
  · simp only [hy, if_true]
    by_cases hg : sizeGreater ((l.items.length : Int) - l.itemOffset) l.slotCount = true
    · have hne : l.itemOffset ≠ (l.items.length : Int) := by
        intro heq
        simp [sizeGreater, sizeModulus, heq] at hg
        have := Int.emod_nonneg l.slotCount (show (2 : Int) ^ 64 ≠ 0 by norm_num)
        omega
      have hr : intMin ≤ l.itemOffset + 1 ∧ l.itemOffset + 1 ≤ intMax := by
        unfold intMin
        unfold intMax at hlen ⊢
        constructor <;> omega
      simp only [hg, if_true, checkInt, hr, and_self]
      exact ⟨_, _, rfl⟩
    · simp only [hg]
      exact ⟨_, _, rfl⟩
  · simp only [hy, if_false]
    split_ifs <;> exact ⟨_, _, rfl⟩

/-! ## Claims -/

/-- C1 (the code departs from the claim): on the creature whose action stack is the single
`DoCommand` action `actDoCommand`, with a script that leaves the creature alone,
`Area::updateCreature` runs the script once, calls `popCurrentAction` not at all and returns
with the action stack unchanged, the `DoCommand` action still on top. -/
theorem updateCreature_doCommand_not_popped :
    ∃ w1, updateCreature envDebug 0 (worldWith [actDoCommand]) 0 = .ok w1 ∧
      w1.trace = [.scriptRun 7 { savedState := some 7, callerId := 5 }] ∧
      w1.creature.actions = [actDoCommand] ∧
      w1.creature.actions.length = (worldWith [actDoCommand]).creature.actions.length := by
  refine ⟨_, updateCreature_doCommand envDebug 0 (worldWith [actDoCommand]) 0 actDoCommand []
    7 rfl rfl rfl, ?_, ?_, ?_⟩ <;> rfl

/-- C2 (counterexample): on the creature whose top action is `actFollowNull`, a `Follow` without
target, `Area::updateCreature` does not complete, with assertions compiled in or out, so it
does not discard the action. -/
theorem updateCreature_follow_null_counterexample :
    (¬ ∃ w1, updateCreature envDebug 0 (worldWith [actFollowNull]) 0 = .ok w1) ∧
    (¬ ∃ w1, updateCreature envRelease 0 (worldWith [actFollowNull]) 0 = .ok w1) ∧
    updateCreature envDebug 0 (worldWith [actFollowNull]) 0 = .error .assertionFailed ∧
    updateCreature envRelease 0 (worldWith [actFollowNull]) 0 = .error .nullDereference := by
  have h1 : updateCreature envDebug 0 (worldWith [actFollowNull]) 0 = .error .assertionFailed :=
    rfl
  have h2 : updateCreature envRelease 0 (worldWith [actFollowNull]) 0 =
      .error .nullDereference := rfl
  refine ⟨?_, ?_, h1, h2⟩
  · rintro ⟨w1, h⟩
    rw [h1] at h
    cases h
  · rintro ⟨w1, h⟩
    rw [h2] at h
    cases h

/-- C2 (amended): for every creature whose top action has kind `Follow` and an absent target,
`Area::updateCreature` stops with a fault before `navigateCreature` or `popCurrentAction` is
reached: the failure of `assert(spatial)` when assertions are compiled in, the dereference of
the null target otherwise. -/
theorem updateCreature_follow_null_faults (env : Env) (now : Nat) (w : World) (dt : ℚ)
    (a : Action) (rest : List Action) (hact : w.creature.actions = a :: rest)
    (htype : a.type = .Follow) (hobj : a.object = .null) :
    updateCreature env now w dt =
      .error (if env.assertsEnabled then .assertionFailed else .nullDereference) :=
  updateCreature_move_fault env now w dt a rest _ hact (Or.inr htype)
    (resolveDestination_follow_null env a htype hobj)

/-- Witness on the world `worldWith [actFollowNull]`. -/
theorem updateCreature_follow_null_faults_witness :
    updateCreature envRelease 3 (worldWith [actFollowNull]) 1 =
      .error (if envRelease.assertsEnabled then .assertionFailed else .nullDereference) :=
  updateCreature_follow_null_faults envRelease 3 (worldWith [actFollowNull]) 1 actFollowNull []
    rfl rfl rfl

/-- C3 (the code departs from the claim): on the creature whose top action is
`actMoveToPoint`, a `MoveToPoint` to the stored point `(3, 4, 0)` without target object, a
build with assertions stops `Area::updateCreature` at `assert(spatial)`; only with assertions
compiled out does the call complete and pass the stored point to `navigateCreature`. -/
theorem updateCreature_moveToPoint_no_target_asserts :
    updateCreature envDebug 0 (worldWith [actMoveToPoint]) 0 = .error .assertionFailed ∧
    ∃ w1, updateCreature envRelease 0 (worldWith [actMoveToPoint]) 0 = .ok w1 ∧
      w1.trace.head? = some (.navigateCreature actMoveToPoint.point actMoveToPoint.distance 0) := by
  refine ⟨rfl, ?_⟩
  have hres : resolveDestination envRelease actMoveToPoint = .ok actMoveToPoint.point := rfl
  rw [updateCreature_move_ok envRelease 0 (worldWith [actMoveToPoint]) 0 actMoveToPoint []
    actMoveToPoint.point rfl (Or.inl rfl) hres]
  have hfar : ¬ distance2 (worldWith [actMoveToPoint]).creature.position actMoveToPoint.point
      ≤ actMoveToPoint.distance := by
    norm_num [distance2, worldWith, creatureWith, origin0, actMoveToPoint]
  rw [navigateCreature_far_no_path envRelease 0
    ((worldWith [actMoveToPoint]).log
      (.navigateCreature actMoveToPoint.point actMoveToPoint.distance 0))
    actMoveToPoint.point actMoveToPoint.distance 0 hfar rfl]
  exact ⟨_, rfl, rfl⟩

/-- C6: for a creature out of the arrival distance, a returning call of
`Area::navigateCreature` has called `advanceCreatureOnPath` once and `updateCreaturePath` not
at all exactly when a cached path exists and either its destination equals the requested one
or the `uint32_t` difference `now - timeFound` is at most `kKeepPathDuration` = 1000; it has
called `updateCreaturePath` once, `advanceCreatureOnPath` not at all and left the path alone
exactly in the other case. A path with the same destination is kept whatever its age, a path
with another destination while it is at most 1000 ms old. On a clock that has not wrapped the
`uint32_t` difference is the elapsed time, and the call returns whenever the cursor is within
bounds. -/
theorem navigateCreature_advances_iff_path_kept (env : Env) (now : Nat) (w : World)
    (dest : Vec3) (distance dt : ℚ)
    (hfar : ¬ distance2 w.creature.position dest ≤ distance) :
    (∀ b wn, navigateCreature env now w dest distance dt = .ok (b, wn) →
      ((advanceCount wn.trace = advanceCount w.trace + 1 ∧
          updatePathCount wn.trace = updatePathCount w.trace) ↔
        ∃ p, w.creature.path = some p ∧
          (p.destination = dest ∨ u32sub now p.timeFound ≤ kKeepPathDuration)) ∧
      ((updatePathCount wn.trace = updatePathCount w.trace + 1 ∧
          advanceCount wn.trace = advanceCount w.trace ∧
          wn.creature.path = w.creature.path) ↔
        ¬ ∃ p, w.creature.path = some p ∧
          (p.destination = dest ∨ u32sub now p.timeFound ≤ kKeepPathDuration))) ∧
    (∀ p, w.creature.path = some p → p.destination = dest →
      navigateCreature env now w dest distance dt =
        match advanceCreatureOnPath env (w.log (.advanceCreatureOnPath dt)) dt with
        | .error e => .error e
        | .ok w1 => .ok (false, w1)) ∧
    (∀ p, w.creature.path = some p → u32sub now p.timeFound ≤ kKeepPathDuration →
      navigateCreature env now w dest distance dt =
        match advanceCreatureOnPath env (w.log (.advanceCreatureOnPath dt)) dt with
        | .error e => .error e
        | .ok w1 => .ok (false, w1)) ∧
    ((¬ ∃ p, w.creature.path = some p ∧
        (p.destination = dest ∨ u32sub now p.timeFound ≤ kKeepPathDuration)) →
      navigateCreature env now w dest distance dt =
        .ok (false, updateCreaturePath (w.log (.updateCreaturePath dest)) dest)) ∧
    ((∀ p, w.creature.path = some p → p.pointIdx ≤ p.points.length) →
      ∃ wn, navigateCreature env now w dest distance dt = .ok (false, wn)) ∧
    kKeepPathDuration = 1000 ∧
    (∀ p, w.creature.path = some p → p.timeFound ≤ now → now < 2 ^ 32 →
      u32sub now p.timeFound = now - p.timeFound) := by
  refine ⟨?_, ?_, ?_, ?_, ?_, rfl, ?_⟩
  · intro b wn h
    obtain ⟨hk, hs⟩ := navigateCreature_far_counts env now w wn dest distance dt b hfar h
    constructor
    · constructor
      · rintro ⟨h1, h2⟩
        by_contra hno
        have := (hs hno).1
        omega
      · intro hkeep
        exact ⟨(hk hkeep).1, (hk hkeep).2.1⟩
    · constructor
      · rintro ⟨h1, h2, _⟩ hkeep
        have := (hk hkeep).1
        omega
      · intro hno
        exact ⟨(hs hno).1, (hs hno).2.1, (hs hno).2.2.1⟩
  · intro p hp hd
    exact navigateCreature_far_keep env now w dest distance dt p hfar hp (Or.inl hd)
  · intro p hp ht
    exact navigateCreature_far_keep env now w dest distance dt p hfar hp (Or.inr ht)
  · intro hno
    rcases hp : w.creature.path with _ | p
    · exact navigateCreature_far_no_path env now w dest distance dt hfar hp
    · exact navigateCreature_far_stale env now w dest distance dt p hfar hp
        (fun hk => hno ⟨p, hp, hk⟩)
  · exact navigateCreature_far_ok env now w dest distance dt hfar
  · intro p _ hle hnow
    exact u32sub_eq_sub now p.timeFound hle hnow

/-- Witness: at clock value 5000 a path to the
requested destination found at 0 is still advanced on. -/
theorem navigateCreature_advances_iff_path_kept_witness :
    ∃ wn, navigateCreature envDebug 5000 (worldOnPath false) east10 1 0 = .ok (false, wn) ∧
      advanceCount wn.trace = advanceCount (worldOnPath false).trace + 1 ∧
      updatePathCount wn.trace = updatePathCount (worldOnPath false).trace := by
  have hfar : ¬ distance2 (worldOnPath false).creature.position east10 ≤ 1 := by
    norm_num [distance2, worldOnPath, origin0, east10]
  have h := navigateCreature_advances_iff_path_kept envDebug 5000 (worldOnPath false) east10 1 0
    hfar
  obtain ⟨wn, hwn⟩ := h.2.2.2.2.1 (fun p hp => by
    cases hp
    exact Nat.le_refl _)
  exact ⟨wn, hwn, ((h.1 false wn hwn).1).mpr ⟨pathEast10, rfl, Or.inl rfl⟩⟩

/-- C7 (counterexample): the creature of `worldOnPath true` is out of the arrival distance of
`east20`, holds a path to `east10` found at 0 and has its pending-update flag set; the call of
`Area::navigateCreature` at clock value 5000 with destination `east20` submits no job. -/
theorem navigateCreature_stale_pending_no_job :
    ¬ distance2 (worldOnPath true).creature.position east20 ≤ 1 ∧
    (worldOnPath true).creature.path = some pathEast10 ∧
    pathEast10.destination ≠ east20 ∧
    pathEast10.timeFound + 1000 < 5000 ∧
    ∃ wn, navigateCreature envDebug 5000 (worldOnPath true) east20 1 0 = .ok (false, wn) ∧
      wn.jobs = (worldOnPath true).jobs ∧ wn.jobs = [] ∧
      wn.trace = [.updateCreaturePath east20] := by
  have hfar : ¬ distance2 (worldOnPath true).creature.position east20 ≤ 1 := by
    norm_num [distance2, worldOnPath, origin0, east20]
  have hstale : ¬ (pathEast10.destination = east20 ∨
      u32sub 5000 pathEast10.timeFound ≤ kKeepPathDuration) := by decide
  refine ⟨hfar, rfl, by decide, by decide, _,
    navigateCreature_far_stale envDebug 5000 (worldOnPath true) east20 1 0 pathEast10 hfar rfl
      hstale, rfl, rfl, rfl⟩

/-- C7 (amended): for a creature out of the arrival distance holding a cached path found at
`T`, a call of `Area::navigateCreature` at a 32-bit clock value `now > T + 1000` with a
destination other than that of the cached path requests a path update; a new job for the
requested destination is submitted (and the pending-update flag set) when the flag was clear,
and nothing is submitted when the flag was set. -/
theorem navigateCreature_stale_dispatches_unless_pending (env : Env) (now : Nat) (w : World)
    (dest : Vec3) (distance dt : ℚ) (p : Path)
    (hfar : ¬ distance2 w.creature.position dest ≤ distance)
    (hpath : w.creature.path = some p) (hdest : p.destination ≠ dest)
    (hold : p.timeFound + 1000 < now) (hnow : now < 2 ^ 32) :
    (w.creature.pathUpdating = false →
      navigateCreature env now w dest distance dt =
        .ok (false,
          { creature := { w.creature with pathUpdating := true }
            jobs := w.jobs ++ [{ dest := dest }]
            trace := w.trace ++ [.updateCreaturePath dest, .enqueue { dest := dest }] })) ∧
    (w.creature.pathUpdating = true →
      navigateCreature env now w dest distance dt =
        .ok (false, { w with trace := w.trace ++ [.updateCreaturePath dest] })) := by
  have hsub : u32sub now p.timeFound = now - p.timeFound :=
    u32sub_eq_sub now p.timeFound (by omega) hnow
  have hstale : ¬ (p.destination = dest ∨ u32sub now p.timeFound ≤ kKeepPathDuration) := by
    rw [hsub]
    unfold kKeepPathDuration
    rintro (h | h)
    · exact hdest h
    · omega
  rw [navigateCreature_far_stale env now w dest distance dt p hfar hpath hstale]
  constructor
  · intro hflag
    simp [updateCreaturePath, World.log, Creature.isPathUpdating, Creature.setPathUpdating, hflag]
  · intro hflag
    simp [updateCreaturePath, World.log, Creature.isPathUpdating, hflag]

/-- Witness: with the flag clear, the
stale path to `east10` makes the call for `east20` at clock value 5000 submit one job. -/
theorem navigateCreature_stale_dispatches_unless_pending_witness :
    ∃ wn, navigateCreature envDebug 5000 (worldOnPath false) east20 1 0 = .ok (false, wn) ∧
      wn.jobs = [{ dest := east20 }] ∧ wn.creature.pathUpdating = true := by
  have hfar : ¬ distance2 (worldOnPath false).creature.position east20 ≤ 1 := by
    norm_num [distance2, worldOnPath, origin0, east20]
  exact ⟨_, (navigateCreature_stale_dispatches_unless_pending envDebug 5000 (worldOnPath false)
    east20 1 0 pathEast10 hfar rfl (by decide) (by decide) (by decide)).1 rfl, rfl, rfl⟩

/-- C8: start with the pending-update flag clear and no job submitted; after every interleaving
of `Area::updateCreaturePath` calls and job completions on the creature, the number of jobs
submitted and not yet completed is at most one, and it is one exactly when the pending-update
flag is set. -/
theorem single_job_in_flight (env : Env) (w : World) (steps : List PathStep)
    (hflag : w.creature.pathUpdating = false) (hjobs : w.jobs = []) :
    (runPathSteps env w steps).jobs.length ≤ 1 ∧
    ((runPathSteps env w steps).jobs.length = 1 ↔
      (runPathSteps env w steps).creature.pathUpdating = true) := by
  rcases runPathSteps_flagMatchesQueue env steps w (Or.inl ⟨hjobs, hflag⟩) with
    ⟨hj, hf⟩ | ⟨job, hj, hf⟩
  · simp [hj, hf]
  · simp [hj, hf]

/-- Witness: three requests in a row, a completion and one more
request leave one job in flight and the flag set. -/
theorem single_job_in_flight_witness :
    (runPathSteps envDebug (worldWith [])
        [.request east10, .request east20, .request east10, .complete 7,
          .request east20]).jobs.length ≤ 1 ∧
    ((runPathSteps envDebug (worldWith [])
        [.request east10, .request east20, .request east10, .complete 7,
          .request east20]).jobs.length = 1 ↔
      (runPathSteps envDebug (worldWith [])
        [.request east10, .request east20, .request east10, .complete 7,
          .request east20]).creature.pathUpdating = true) :=
  single_job_in_flight envDebug (worldWith []) _ rfl rfl

/-- C9: `Area::updateCreaturePath` called with the pending-update flag set returns the state it
was given: no job is submitted, the creature is unchanged. Called with the flag clear it sets
the flag, changes nothing else of the creature and submits exactly one job, for the requested
destination. -/
theorem updateCreaturePath_guard (w : World) (dest : Vec3) :
    (w.creature.pathUpdating = true → updateCreaturePath w dest = w) ∧
    (w.creature.pathUpdating = false →
      (updateCreaturePath w dest).creature = { w.creature with pathUpdating := true } ∧
      (updateCreaturePath w dest).jobs = w.jobs ++ [{ dest := dest }] ∧
      (updateCreaturePath w dest).jobs.length = w.jobs.length + 1 ∧
      (updateCreaturePath w dest).trace = w.trace ++ [.enqueue { dest := dest }]) := by
  constructor
  · intro hflag
    simp [updateCreaturePath, Creature.isPathUpdating, hflag]
  · intro hflag
    simp [updateCreaturePath, Creature.isPathUpdating, Creature.setPathUpdating, hflag]

/-- C10 (counterexample): a job is submitted for the creature standing at the origin, the
creature is then moved to `east20`, and the job runs: the origin passed to the navigation query
is `east20`, not the position at submission. -/
theorem job_origin_not_submission_position :
    (worldWith []).creature.position = origin0 ∧ origin0 ≠ east20 ∧
    (completeJob envDebug 7
        ((updateCreaturePath (worldWith []) east10).moveCreature east20)).trace =
      [.enqueue { dest := east10 }, .findPath east20 east10, .setPath east10 [] 7] ∧
    Event.findPath origin0 east10 ∉
      (completeJob envDebug 7
        ((updateCreaturePath (worldWith []) east10).moveCreature east20)).trace := by
  refine ⟨rfl, by decide, rfl, ?_⟩
  have ht : (completeJob envDebug 7
      ((updateCreaturePath (worldWith []) east10).moveCreature east20)).trace =
      [.enqueue { dest := east10 }, .findPath east20 east10, .setPath east10 [] 7] := rfl
  rw [ht]
  decide

/-- C10 (amended): the origin a submitted navigation job passes to the navigation query is the
position of the creature at the moment the job runs: after a submission by
`Area::updateCreaturePath` with the flag clear and the queue empty, whatever position `p` the
creature is moved to before the job runs, the query is made from `p`, and its result for `p`
is what is stored. -/
theorem job_origin_is_position_at_execution (env : Env) (now : Nat) (w : World)
    (dest p : Vec3) (hflag : w.creature.pathUpdating = false) (hjobs : w.jobs = []) :
    (completeJob env now ((updateCreaturePath w dest).moveCreature p)).trace =
      w.trace ++ [.enqueue { dest := dest }, .findPath p dest,
        .setPath dest (env.findPath p dest) now] ∧
    (completeJob env now ((updateCreaturePath w dest).moveCreature p)).creature.path =
      some { destination := dest, points := env.findPath p dest, timeFound := now,
             pointIdx := 0 } := by
  simp [completeJob, updateCreaturePath, World.moveCreature, runJob, Creature.isPathUpdating,
    Creature.setPathUpdating, Creature.setPath, hflag, hjobs]

/-- Witness on the creature moved to `east20`. -/
theorem job_origin_is_position_at_execution_witness :
    (completeJob envDebug 7
        ((updateCreaturePath (worldWith []) east10).moveCreature east20)).trace =
      (worldWith []).trace ++ [.enqueue { dest := east10 }, .findPath east20 east10,
        .setPath east10 (envDebug.findPath east20 east10) 7] :=
  (job_origin_is_position_at_execution envDebug 7 (worldWith []) east10 east20 rfl rfl).1

/-- C12 (counterexample): the job for `east10`, run with its cancellation flag signalled on a
creature without a cached path, publishes a path: the path cache is not what it was before. -/
theorem cancelled_job_publishes_path :
    (worldWith []).creature.path = none ∧
    (jobBody envDebug 7 { dest := east10 } true (worldWith [])).creature.path =
      some { destination := east10, points := [], timeFound := 7, pointIdx := 0 } ∧
    (jobBody envDebug 7 { dest := east10 } true (worldWith [])).creature.path ≠
      (worldWith []).creature.path := by
  refine ⟨rfl, rfl, ?_⟩
  intro h
  cases h

/-- C12 (amended): a navigation job that runs with its cancellation flag signalled does what a
job without the signal does: the flag is not read, the query is made and its result is
published as the new path, with the pending-update flag cleared. -/
theorem cancelled_job_runs_like_any_job (env : Env) (now : Nat) (job : Job) (w : World) :
    jobBody env now job true w = jobBody env now job false w ∧
    (jobBody env now job true w).creature.path =
      some { destination := job.dest, points := env.findPath w.creature.position job.dest
             timeFound := now, pointIdx := 0 } ∧
    (jobBody env now job true w).creature.pathUpdating = false ∧
    (jobBody env now job true w).trace =
      w.trace ++ [.findPath w.creature.position job.dest,
        .setPath job.dest (env.findPath w.creature.position job.dest) now] :=
  ⟨rfl, rfl, rfl, rfl⟩

/-- C13: for a path whose cursor is at most its waypoint count, `Area::selectNextPathPoint`
and `Area::advanceCreatureOnPath` (which returns) keep the waypoints, do not decrease the
cursor, raise it by at most one and keep it within the waypoint count; a cursor equal to the
waypoint count stays equal to it, also over any number of `selectNextPathPoint` calls. -/
theorem cursor_monotone_within_count (env : Env) (w : World) (dt : ℚ) (p : Path)
    (hpath : w.creature.path = some p) (hidx : p.pointIdx ≤ p.points.length) :
    ((selectNextPathPoint p).points = p.points ∧
      p.pointIdx ≤ (selectNextPathPoint p).pointIdx ∧
      (selectNextPathPoint p).pointIdx ≤ p.pointIdx + 1 ∧
      (selectNextPathPoint p).pointIdx ≤ (selectNextPathPoint p).points.length ∧
      (p.pointIdx = p.points.length →
        ∀ n, (selectNextPathPoint^[n] p).pointIdx = p.points.length)) ∧
    ∃ w1 p1, advanceCreatureOnPath env w dt = .ok w1 ∧ w1.creature.path = some p1 ∧
      p1.points = p.points ∧
      p.pointIdx ≤ p1.pointIdx ∧
      p1.pointIdx ≤ p.pointIdx + 1 ∧
      p1.pointIdx ≤ p1.points.length ∧
      (p.pointIdx = p.points.length → p1.pointIdx = p1.points.length) := by
  obtain ⟨hpts, _, hmono, hstep, hbound, _, hstay⟩ := selectNextPathPoint_cursor p
  constructor
  · refine ⟨hpts, hmono, hstep, by rw [hpts]; exact hbound hidx, ?_⟩
    intro heq n
    have hfix : selectNextPathPoint p = p := by
      simp [selectNextPathPoint, heq]
    rw [Function.iterate_fixed hfix n]
    exact heq
  · obtain ⟨w1, hw1⟩ := advanceCreatureOnPath_ok env w dt p hpath hidx
    rcases advanceCreatureOnPath_path env w w1 dt p hpath hw1 with h | h
    · exact ⟨w1, p, hw1, h, rfl, Nat.le_refl _, Nat.le_succ _, hidx, fun heq => heq⟩
    · refine ⟨w1, selectNextPathPoint p, hw1, h, hpts, hmono, hstep, ?_, ?_⟩
      · rw [hpts]
        exact hbound hidx
      · intro heq
        rw [hpts]
        exact hstay heq

/-- Witness: on the path `pathTwoLegs` (cursor 0, one waypoint) a call returns with the cursor
between 0 and 1. -/
theorem cursor_monotone_within_count_witness :
    ∃ w1 p1, advanceCreatureOnPath (envStep true) worldTwoLegs 1 = .ok w1 ∧
      w1.creature.path = some p1 ∧ p1.points = pathTwoLegs.points ∧
      pathTwoLegs.pointIdx ≤ p1.pointIdx ∧ p1.pointIdx ≤ pathTwoLegs.pointIdx + 1 ∧
      p1.pointIdx ≤ p1.points.length := by
  obtain ⟨w1, p1, h1, h2, h3, h4, h5, h6, _⟩ :=
    (cursor_monotone_within_count (envStep true) worldTwoLegs 1 pathTwoLegs rfl
      (by decide)).2
  exact ⟨w1, p1, h1, h2, h3, h4, h5, h6⟩

/-- C14 (counterexample): the creature of `worldTwoLegs` stands at the origin, its sub-target is
the waypoint `east10` at squared distance 100, and the motion step takes it to `east5`, nearer
to the waypoint but still out of the closeness threshold. When the step answers `true`, the
movement type is `Run` and the cursor is advanced from 0 to 1; when it answers `false`, the
cursor is kept and the movement type is `None`. In neither case is the movement type `Run`
with the cursor kept. -/
theorem advanceCreatureOnPath_partial_step :
    pathTarget pathTwoLegs = .ok east10 ∧
    ¬ distance2 worldTwoLegs.creature.position east10 ≤ 1 ∧
    distance2 east5 east10 < distance2 worldTwoLegs.creature.position east10 ∧
    ¬ distance2 east5 east10 ≤ 1 ∧
    advanceCreatureOnPath (envStep true) worldTwoLegs 1 =
      .ok { creature :=
              { worldTwoLegs.creature with
                position := east5
                path := some { pathTwoLegs with pointIdx := 1 }
                movementType := .Run }
            jobs := []
            trace := [.moveCreatureTowards east10 1, .selectNextPathPoint] } ∧
    advanceCreatureOnPath (envStep false) worldTwoLegs 1 =
      .ok { creature :=
              { worldTwoLegs.creature with position := east5, movementType := .None }
            jobs := []
            trace := [.moveCreatureTowards east10 1] } := by
  have hfar : ¬ distance2 worldTwoLegs.creature.position east10 ≤ 1 := by
    norm_num [distance2, worldTwoLegs, origin0, east10]
  refine ⟨rfl, hfar, ?_, ?_, ?_, ?_⟩
  · norm_num [distance2, worldTwoLegs, origin0, east10, east5]
  · norm_num [distance2, east10, east5]
  · exact advanceCreatureOnPath_far_moved (envStep true) worldTwoLegs 1 pathTwoLegs east10 rfl
      rfl hfar rfl
  · exact advanceCreatureOnPath_far_blocked (envStep false) worldTwoLegs 1 pathTwoLegs east10 rfl
      rfl hfar rfl

/-- C14 (amended): when the creature is farther than the closeness threshold (squared planar
distance above 1) from the current sub-target, `Area::advanceCreatureOnPath` goes by the
boolean answer of the motion step alone: on `true` the movement type is set to `Run` and the
next path point is selected (the cursor advances by one unless it is at the waypoint count);
on `false` the movement type is set to `None` and the path is kept. How near the step brought
the creature to the sub-target is not looked at. -/
theorem advanceCreatureOnPath_far_outcome (env : Env) (w : World) (dt : ℚ) (p : Path)
    (target : Vec3) (hpath : w.creature.path = some p) (htarget : pathTarget p = .ok target)
    (hfar : ¬ distance2 w.creature.position target ≤ 1) :
    ∃ w1, advanceCreatureOnPath env w dt = .ok w1 ∧
      w1.creature.position = (env.moveCreatureTowards w.creature target dt).2 ∧
      ((env.moveCreatureTowards w.creature target dt).1 = true →
        w1.creature.movementType = .Run ∧
        w1.creature.path = some (selectNextPathPoint p) ∧
        (p.pointIdx < p.points.length →
          (selectNextPathPoint p).pointIdx = p.pointIdx + 1)) ∧
      ((env.moveCreatureTowards w.creature target dt).1 = false →
        w1.creature.movementType = .None ∧ w1.creature.path = some p) := by
  cases hm : (env.moveCreatureTowards w.creature target dt).1 with
  | true =>
    refine ⟨_, advanceCreatureOnPath_far_moved env w dt p target hpath htarget hfar hm, rfl,
      fun _ => ⟨rfl, rfl, (selectNextPathPoint_cursor p).2.2.2.2.2.1⟩, fun h => by cases h⟩
  | false =>
    refine ⟨_, advanceCreatureOnPath_far_blocked env w dt p target hpath htarget hfar hm, rfl,
      (fun h => by cases h), fun _ => ⟨rfl, hpath⟩⟩

/-- Witness: the step of `envStep true` on `worldTwoLegs` advances the cursor and sets
`Run`. -/
theorem advanceCreatureOnPath_far_outcome_witness :
    ∃ w1, advanceCreatureOnPath (envStep true) worldTwoLegs 1 = .ok w1 ∧
      w1.creature.movementType = .Run ∧
      w1.creature.path = some (selectNextPathPoint pathTwoLegs) := by
  have hfar : ¬ distance2 worldTwoLegs.creature.position east10 ≤ 1 := by
    norm_num [distance2, worldTwoLegs, origin0, east10]
  obtain ⟨w1, h1, _, h2, _⟩ :=
    advanceCreatureOnPath_far_outcome (envStep true) worldTwoLegs 1 pathTwoLegs east10 rfl rfl
      hfar
  exact ⟨w1, h1, (h2 rfl).1, (h2 rfl).2.1⟩

/-- C15: for a creature whose top action `a` is `StartConversation`, `Area::updateCreature`
returns with exactly that action popped (the stack is the rest, one `popCurrentAction`), the
creature otherwise unchanged and no job submitted. With the callback set, the trace gains one
`onStartDialog` call, made with the id of the acting creature and `a.resRef`, before the pop;
with no callback set, there is no such call and no fault. -/
theorem updateCreature_startConversation (env : Env) (now : Nat) (w : World) (dt : ℚ)
    (a : Action) (rest : List Action) (hact : w.creature.actions = a :: rest)
    (htype : a.type = .StartConversation) :
    ∃ w1, updateCreature env now w dt = .ok w1 ∧
      w1.creature = { w.creature with actions := rest } ∧
      w1.jobs = w.jobs ∧
      (env.hasStartDialog = true →
        w1.trace = w.trace ++ [.onStartDialog w.creature.id a.resRef, .popCurrentAction]) ∧
      (env.hasStartDialog = false → w1.trace = w.trace ++ [.popCurrentAction]) := by
  cases hcb : env.hasStartDialog with
  | true =>
    refine ⟨{ creature := { w.creature with actions := rest }, jobs := w.jobs
              trace := w.trace ++ [.onStartDialog w.creature.id a.resRef, .popCurrentAction] },
      ?_, rfl, rfl, fun _ => rfl, fun h => by cases h⟩
    simp [updateCreature, Creature.hasActions, Creature.currentAction, hact, htype, hcb,
      World.log, World.popCurrentAction, Creature.popCurrentAction]
  | false =>
    refine ⟨{ creature := { w.creature with actions := rest }, jobs := w.jobs
              trace := w.trace ++ [.popCurrentAction] },
      ?_, rfl, rfl, (fun h => by cases h), fun _ => rfl⟩
    simp [updateCreature, Creature.hasActions, Creature.currentAction, hact, htype, hcb,
      World.popCurrentAction, Creature.popCurrentAction]

/-- Witness: the dialog `"dlg01"` is started once by creature 5 and the action is popped. -/
theorem updateCreature_startConversation_witness :
    ∃ w1, updateCreature envDialog 0 (worldWith [actStartConversation, actDoCommand]) 0 =
        .ok w1 ∧
      w1.creature.actions = [actDoCommand] ∧
      w1.trace = [.onStartDialog 5 "dlg01", .popCurrentAction] := by
  obtain ⟨w1, h1, h2, _, h3, _⟩ :=
    updateCreature_startConversation envDialog 0
      (worldWith [actStartConversation, actDoCommand]) 0 actStartConversation [actDoCommand]
      rfl rfl
  exact ⟨w1, h1, by rw [h2], h3 rfl⟩

/-- C16: for a creature whose top action has a kind other than `MoveToPoint`, `Follow`,
`DoCommand` and `StartConversation`, `Area::updateCreature` emits the warning naming the kind
and pops that action: the stack is the rest, one entry shorter, and nothing else changes. -/
theorem updateCreature_unimplemented_pops (env : Env) (now : Nat) (w : World) (dt : ℚ)
    (a : Action) (rest : List Action) (hact : w.creature.actions = a :: rest)
    (hmove : a.type ≠ .MoveToPoint) (hfollow : a.type ≠ .Follow)
    (hcommand : a.type ≠ .DoCommand) (hdialog : a.type ≠ .StartConversation) :
    ∃ code, a.type = .Other code ∧
      updateCreature env now w dt =
        .ok { creature := { w.creature with actions := rest }
              jobs := w.jobs
              trace := w.trace ++ [.warn code, .popCurrentAction] } ∧
      rest.length + 1 = w.creature.actions.length := by
  cases htype : a.type with
  | MoveToPoint => exact absurd htype hmove
  | Follow => exact absurd htype hfollow
  | DoCommand => exact absurd htype hcommand
  | StartConversation => exact absurd htype hdialog
  | Other code =>
    refine ⟨code, rfl, ?_, by simp [hact]⟩
    simp [updateCreature, Creature.hasActions, Creature.currentAction, hact, htype, World.log,
      World.popCurrentAction, Creature.popCurrentAction]

/-- Witness: the action of kind 9 is warned about and popped. -/
theorem updateCreature_unimplemented_pops_witness :
    ∃ code, actOther.type = .Other code ∧
      updateCreature envDebug 0 (worldWith [actOther, actDoCommand]) 0 =
        .ok { creature := { (worldWith [actOther, actDoCommand]).creature with
                            actions := [actDoCommand] }
              jobs := (worldWith [actOther, actDoCommand]).jobs
              trace := (worldWith [actOther, actDoCommand]).trace ++
                [.warn code, .popCurrentAction] } ∧
      [actDoCommand].length + 1 = (worldWith [actOther, actDoCommand]).creature.actions.length :=
  updateCreature_unimplemented_pops envDebug 0 (worldWith [actOther, actDoCommand]) 0 actOther
    [actDoCommand] rfl (by decide) (by decide) (by decide) (by decide)

/-- C17: if `Area::navigateCreature` reports arrived, the state it returns has the position,
path (with cursor) and pending-update flag it was given and the movement type `None`, and a
second call with the same destination, arrival distance and elapsed time on that state, at any
clock value, reports arrived again and returns that state unchanged. -/
theorem navigateCreature_arrived_again (env : Env) (now now2 : Nat) (w w1 : World)
    (dest : Vec3) (distance dt : ℚ)
    (h : navigateCreature env now w dest distance dt = .ok (true, w1)) :
    w1.creature.position = w.creature.position ∧
    w1.creature.path = w.creature.path ∧
    w1.creature.pathUpdating = w.creature.pathUpdating ∧
    w1.creature.movementType = .None ∧
    navigateCreature env now2 w1 dest distance dt = .ok (true, w1) := by
  have hnear : distance2 w.creature.position dest ≤ distance :=
    (navigateCreature_answer env now w w1 dest distance dt true h).mp rfl
  rw [navigateCreature_near env now w dest distance dt hnear] at h
  injection h with h
  injection h with _ h
  subst h
  exact ⟨rfl, rfl, rfl, rfl, navigateCreature_near env now2 _ dest distance dt hnear⟩

/-- Witness: the creature at the origin, asked to come within squared distance 100 of `east5`,
has arrived and has arrived again at clock value 9. -/
theorem navigateCreature_arrived_again_witness :
    navigateCreature envDebug 9
        { worldOnPath false with
          creature := { (worldOnPath false).creature with movementType := .None } }
        east5 100 1 =
      .ok (true,
        { worldOnPath false with
          creature := { (worldOnPath false).creature with movementType := .None } }) :=
  (navigateCreature_arrived_again envDebug 0 9 (worldOnPath false) _ east5 100 1
    (navigateCreature_near envDebug 0 (worldOnPath false) east5 100 1
      (by norm_num [distance2, worldOnPath, origin0, east5]))).2.2.2.2

/-- C20: for a path whose cursor is at most its waypoint count, the sub-target of
`Area::advanceCreatureOnPath` exists (the waypoint lookup is in bounds): it is
`points[pointIdx]` when the cursor is below the waypoint count and the destination when the
cursor equals it. The call returns; the closeness test is made against that sub-target and,
out of the threshold, the motion step is made towards it. -/
theorem advanceCreatureOnPath_subtarget (env : Env) (w : World) (dt : ℚ) (p : Path)
    (hpath : w.creature.path = some p) (hidx : p.pointIdx ≤ p.points.length) :
    ∃ target, pathTarget p = .ok target ∧
      (∀ hlt : p.pointIdx < p.points.length, target = p.points.get ⟨p.pointIdx, hlt⟩) ∧
      (p.pointIdx = p.points.length → target = p.destination) ∧
      (distance2 w.creature.position target ≤ 1 →
        advanceCreatureOnPath env w dt =
          .ok { creature := { w.creature with path := some (selectNextPathPoint p) }
                jobs := w.jobs
                trace := w.trace ++ [.selectNextPathPoint] }) ∧
      (¬ distance2 w.creature.position target ≤ 1 →
        ∃ w1 tail, advanceCreatureOnPath env w dt = .ok w1 ∧
          w1.trace = w.trace ++ .moveCreatureTowards target dt :: tail ∧
          w1.creature.position = (env.moveCreatureTowards w.creature target dt).2) := by
  obtain ⟨target, htarget⟩ := pathTarget_ok p hidx
  refine ⟨target, htarget, ?_, ?_, ?_, ?_⟩
  · intro hlt
    have h := pathTarget_waypoint p hlt
    rw [htarget] at h
    injection h
  · intro heq
    have h := pathTarget_destination p heq
    rw [htarget] at h
    injection h
  · exact advanceCreatureOnPath_close env w dt p target hpath htarget
  · intro hfar
    cases hm : (env.moveCreatureTowards w.creature target dt).1 with
    | true =>
      exact ⟨_, [.selectNextPathPoint],
        advanceCreatureOnPath_far_moved env w dt p target hpath htarget hfar hm, rfl, rfl⟩
    | false =>
      exact ⟨_, [], advanceCreatureOnPath_far_blocked env w dt p target hpath htarget hfar hm,
        rfl, rfl⟩

/-- Witness: on `pathTwoLegs` the cursor 0 is below the waypoint count 1 and the sub-target is
the waypoint `east10`. -/
theorem advanceCreatureOnPath_subtarget_witness :
    ∃ target, pathTarget pathTwoLegs = .ok target ∧ target = east10 := by
  obtain ⟨target, h1, h2, _⟩ :=
    advanceCreatureOnPath_subtarget envDebug worldTwoLegs 1 pathTwoLegs rfl (by decide)
  exact ⟨target, h1, h2 (by decide)⟩

/-- C18: the effects of `Game::loadNextModule` start with the log line, the cancellation of the
job executor and the await of its jobs, in this order; none of these three saves, replaces or
loads a module. Everything else comes after the await, which happens once: the save of the
current module (first, when a module is loaded), the loading of the resources of the next
module, the replacement of the module and its load. -/
theorem loadNextModule_awaits_before_module_steps (env : GameEnv) (g : Game) :
    ∃ post, (Game.loadNextModule env g).effects =
        g.effects ++ [.info "Awaiting async jobs completion", .jobsCancel, .jobsAwait] ++ post ∧
      (∀ e ∈ [GameEffect.info "Awaiting async jobs completion", .jobsCancel, .jobsAwait],
        e.isModuleStep = false) ∧
      GameEffect.jobsCancel ∉ post ∧
      GameEffect.jobsAwait ∉ post ∧
      (∀ m, g.loadedModule = some m → post.head? = some (.moduleSaveTo m)) ∧
      GameEffect.resLoadModule g.nextModule ∈ post ∧
      GameEffect.moduleReplaced g.objectFactory.counter ∈ post ∧
      GameEffect.moduleLoad g.nextModule ∈ post := by
  have hsteps : ∀ e ∈ [GameEffect.info "Awaiting async jobs completion", .jobsCancel, .jobsAwait],
      e.isModuleStep = false := by
    intro e he
    simp only [List.mem_cons, List.mem_singleton, List.not_mem_nil, or_false] at he
    rcases he with rfl | rfl | rfl <;> rfl
  cases hm : g.loadedModule with
  | none =>
    have heff : (Game.loadNextModule env g).effects =
        (Game.loadModule env
          (g.emit [.info "Awaiting async jobs completion", .jobsCancel, .jobsAwait])
          g.nextModule g.nextEntry).effects := by
      simp [Game.loadNextModule, Game.emit, hm]
    rw [heff, loadModule_effects]
    refine ⟨_, by simp only [Game.emit, List.append_assoc]; rfl, hsteps, ?_, ?_, ?_, ?_, ?_, ?_⟩
    · split_ifs <;> simp
    · split_ifs <;> simp
    · intro m h
      cases h
    · simp [Game.emit]
    · simp [Game.emit]
    · simp [Game.emit]
  | some m =>
    have heff : (Game.loadNextModule env g).effects =
        (Game.loadModule env
          ((g.emit [.info "Awaiting async jobs completion", .jobsCancel, .jobsAwait]).emit
            [.moduleSaveTo m])
          g.nextModule g.nextEntry).effects := by
      simp [Game.loadNextModule, Game.emit, hm]
    rw [heff, loadModule_effects]
    refine ⟨[.moduleSaveTo m] ++ _, by simp only [Game.emit, List.append_assoc]; rfl, hsteps,
      ?_, ?_, ?_, ?_, ?_, ?_⟩
    · split_ifs <;> simp
    · split_ifs <;> simp
    · intro m2 h
      cases h
      rfl
    · simp [Game.emit]
    · simp [Game.emit]
    · simp [Game.emit]

/-- C21: when `Area::navigateCreature` finds the creature out of the arrival distance and no
path to reuse (no cached path, or a cached path with another destination whose `uint32_t` age
`now - timeFound` is above 1000), the call returns `false` and the creature it leaves differs
from the one it was given in the pending-update flag at most: position, movement type, cached
path with its cursor, action stack and id are the same. With the flag clear before, the flag
is set and one job for the destination is submitted; with the flag set before, nothing changes
and no job is submitted. -/
theorem navigateCreature_no_reuse_frame (env : Env) (now : Nat) (w : World) (dest : Vec3)
    (distance dt : ℚ) (hfar : ¬ distance2 w.creature.position dest ≤ distance)
    (hnone : w.creature.path = none ∨
      ∃ p, w.creature.path = some p ∧ p.destination ≠ dest ∧
        kKeepPathDuration < u32sub now p.timeFound) :
    ∃ w1, navigateCreature env now w dest distance dt = .ok (false, w1) ∧
      w1.creature = { w.creature with pathUpdating := w1.creature.pathUpdating } ∧
      w1.creature.position = w.creature.position ∧
      w1.creature.movementType = w.creature.movementType ∧
      w1.creature.path = w.creature.path ∧
      (w.creature.pathUpdating = false →
        w1.creature.pathUpdating = true ∧ w1.jobs = w.jobs ++ [{ dest := dest }]) ∧
      (w.creature.pathUpdating = true → w1.creature = w.creature ∧ w1.jobs = w.jobs) := by
  have hnav : navigateCreature env now w dest distance dt =
      .ok (false, updateCreaturePath (w.log (.updateCreaturePath dest)) dest) := by
    rcases hnone with hp | ⟨p, hp, hdest, hold⟩
    · exact navigateCreature_far_no_path env now w dest distance dt hfar hp
    · refine navigateCreature_far_stale env now w dest distance dt p hfar hp ?_
      rintro (h | h)
      · exact hdest h
      · omega
  refine ⟨_, hnav, ?_⟩
  cases hflag : w.creature.pathUpdating with
  | true =>
    have hw : updateCreaturePath (w.log (.updateCreaturePath dest)) dest =
        w.log (.updateCreaturePath dest) := by
      simp [updateCreaturePath, Creature.isPathUpdating, World.log, hflag]
    rw [hw]
    refine ⟨?_, rfl, rfl, rfl, (fun h => by cases h), fun _ => ⟨rfl, rfl⟩⟩
    show w.creature = { w.creature with pathUpdating := w.creature.pathUpdating }
    rfl
  | false =>
    have hw : updateCreaturePath (w.log (.updateCreaturePath dest)) dest =
        { creature := { w.creature with pathUpdating := true }
          jobs := w.jobs ++ [{ dest := dest }]
          trace := w.trace ++ [.updateCreaturePath dest, .enqueue { dest := dest }] } := by
      simp [updateCreaturePath, Creature.isPathUpdating, Creature.setPathUpdating, World.log,
        hflag]
    rw [hw]
    exact ⟨rfl, rfl, rfl, rfl, fun _ => ⟨rfl, rfl⟩, fun h => by cases h⟩

/-- Witness: the creature of `worldOnPath false`, asked for `east20` at clock value 5000 with a
path to `east10` found at 0, keeps position, movement type and path. -/
theorem navigateCreature_no_reuse_frame_witness :
    ∃ w1, navigateCreature envDebug 5000 (worldOnPath false) east20 1 0 = .ok (false, w1) ∧
      w1.creature.position = (worldOnPath false).creature.position ∧
      w1.creature.movementType = (worldOnPath false).creature.movementType ∧
      w1.creature.path = (worldOnPath false).creature.path := by
  have hfar : ¬ distance2 (worldOnPath false).creature.position east20 ≤ 1 := by
    norm_num [distance2, worldOnPath, origin0, east20]
  obtain ⟨w1, h1, _, h2, h3, h4, _⟩ :=
    navigateCreature_no_reuse_frame envDebug 5000 (worldOnPath false) east20 1 0 hfar
      (Or.inr ⟨pathEast10, rfl, by decide, by decide⟩)
  exact ⟨w1, h1, h2, h3, h4⟩

/-- C22 (the code departs from the claim): on a state without local variables,
`Game::setLocalNumber(7, 0, 5)` returns, and afterwards `Game::getLocalNumber(7, 0)` gives 0,
not 5, while `Game::getLocalBoolean(7, 0)`, false before, gives true: the value was stored
among the local booleans. -/
theorem setLocalNumber_writes_boolean :
    ∃ s1, GameState.setLocalNumber true GameState.empty 7 0 5 = .ok s1 ∧
      GameState.getLocalNumber s1 7 0 = 0 ∧
      GameState.getLocalNumber s1 7 0 ≠ 5 ∧
      GameState.getLocalBoolean true GameState.empty 7 0 = .ok false ∧
      GameState.getLocalBoolean true s1 7 0 = .ok true :=
  ⟨{ GameState.empty with
      localBooleans := GameState.assign GameState.empty.localBooleans 7 0 true },
    rfl, rfl, by decide, rfl, rfl⟩

/-- C23: a new list box (no items, offset 0) has `0 <= _itemOffset <= item count`. For a list
box whose members fit their types, with a slot count that is not negative and the offset in
that range, every returning call of `add`, `clearItems` and `handleMouseWheel` leaves the
offset in that range. `handleMouseWheel` keeps the items and changes the offset by one at
most: it raises it by one exactly when `y < 0` and more than `_slotCount` items remain from
the offset, and lowers it by one exactly when `y > 0` and the offset is positive. The calls
return: `add` and `clearItems` when there is no proto item (or its height plus the padding
divides within `int`), `handleMouseWheel` when the item count is at most `INT_MAX`. -/
theorem listBox_offset_in_range (l : ListBox) (htyped : l.WellTyped) (hslot : 0 ≤ l.slotCount)
    (hinv : l.OffsetInRange) :
    (∀ slotCount extentHeight padding,
      (ListBox.initial slotCount extentHeight padding).OffsetInRange) ∧
    (∀ item l1, l.add item = .ok l1 →
      l1.OffsetInRange ∧ l1.items = l.items ++ [item] ∧ l1.itemOffset = l.itemOffset) ∧
    (∀ l1, l.clearItems = .ok l1 →
      l1.OffsetInRange ∧ l1.items = [] ∧ l1.itemOffset = 0) ∧
    (∀ x y moved l1, l.handleMouseWheel x y = .ok (moved, l1) →
      l1.OffsetInRange ∧ l1.items = l.items ∧
      (l1.itemOffset = l.itemOffset + 1 ↔
        (y < 0 ∧ l.slotCount < (l.items.length : Int) - l.itemOffset)) ∧
      (l1.itemOffset = l.itemOffset - 1 ↔ (0 < y ∧ 0 < l.itemOffset)) ∧
      (l1.itemOffset = l.itemOffset ∨ l1.itemOffset = l.itemOffset + 1 ∨
        l1.itemOffset = l.itemOffset - 1)) ∧
    (l.protoItemHeight = none →
      (∀ item, ∃ l1, l.add item = .ok l1) ∧ ∃ l1, l.clearItems = .ok l1) ∧
    (∀ height, l.protoItemHeight = some height →
      intMin ≤ height + l.padding ∧ height + l.padding ≤ intMax →
      height + l.padding ≠ 0 →
      intMin ≤ Int.tdiv l.extentHeight (height + l.padding) ∧
        Int.tdiv l.extentHeight (height + l.padding) ≤ intMax →
      (∀ item, ∃ l1, l.add item = .ok l1) ∧ ∃ l1, l.clearItems = .ok l1) ∧
    ((l.items.length : Int) ≤ intMax →
      ∀ x y, ∃ moved l1, l.handleMouseWheel x y = .ok (moved, l1)) := by
  obtain ⟨h0, h1⟩ := hinv
  refine ⟨?_, ?_, ?_, ?_, ?_, ?_, ?_⟩
  · intro slotCount extentHeight padding
    exact ⟨Int.le_refl 0, Int.le_refl 0⟩
  · intro item l1 hadd
    obtain ⟨hitems, hoff⟩ := updateItems_frame _ l1 hadd
    refine ⟨?_, hitems, hoff⟩
    unfold ListBox.OffsetInRange
    rw [hitems, hoff]
    simp only [List.length_append, List.length_singleton, Nat.cast_add, Nat.cast_one]
    constructor <;> omega
  · intro l1 hclear
    obtain ⟨hitems, hoff⟩ := updateItems_frame _ l1 hclear
    refine ⟨?_, hitems, hoff⟩
    unfold ListBox.OffsetInRange
    rw [hitems, hoff]
    exact ⟨Int.le_refl 0, Int.le_refl 0⟩
  · intro x y moved l1 hwheel
    obtain ⟨hitems, hup, hdown, hkeep⟩ :=
      handleMouseWheel_offset l l1 x y moved htyped hslot ⟨h0, h1⟩ hwheel
    by_cases hu : y < 0 ∧ l.slotCount < (l.items.length : Int) - l.itemOffset
    · have hoff := hup hu
      refine ⟨?_, hitems, ?_, ?_, Or.inr (Or.inl hoff)⟩
      · unfold ListBox.OffsetInRange
        rw [hitems, hoff]
        constructor <;> omega
      · exact ⟨fun _ => hu, fun _ => hoff⟩
      · constructor
        · intro hc
          omega
        · intro hc
          omega
    · by_cases hd : 0 < y ∧ 0 < l.itemOffset
      · have hoff := hdown hd
        refine ⟨?_, hitems, ?_, ?_, Or.inr (Or.inr hoff)⟩
        · unfold ListBox.OffsetInRange
          rw [hitems, hoff]
          constructor <;> omega
        · constructor
          · intro hc
            omega
          · intro hc
            exact absurd hc hu
        · exact ⟨fun _ => hd, fun _ => hoff⟩
      · have hoff := hkeep hu hd
        refine ⟨?_, hitems, ?_, ?_, Or.inl hoff⟩
        · unfold ListBox.OffsetInRange
          rw [hitems, hoff]
          exact ⟨h0, h1⟩
        · constructor
          · intro hc
            omega
          · intro hc
            exact absurd hc hu
        · constructor
          · intro hc
            omega
          · intro hc
            exact absurd hc hd
  · intro hproto
    exact ⟨fun item => ⟨_, updateItems_no_proto _ hproto⟩, ⟨_, updateItems_no_proto _ hproto⟩⟩
  · intro height hproto hdiv hnz hquot
    exact ⟨fun item => updateItems_ok _ height hproto hdiv hnz hquot,
      updateItems_ok _ height hproto hdiv hnz hquot⟩
  · intro hlen x y
    exact handleMouseWheel_ok l x y ⟨h0, h1⟩ hlen

/-- Witness: the list box `listBoxThree` (three items, two slots, offset 0) scrolls down by one
on a wheel event with `y = -1` and the offset stays within the item list. -/
theorem listBox_offset_in_range_witness :
    ∃ moved l1, listBoxThree.handleMouseWheel 0 (-1) = .ok (moved, l1) ∧
      l1.OffsetInRange ∧ l1.itemOffset = listBoxThree.itemOffset + 1 := by
  have htyped : listBoxThree.WellTyped := by
    unfold ListBox.WellTyped intMin intMax sizeModulus listBoxThree
    norm_num
  have hinv : listBoxThree.OffsetInRange := by
    unfold ListBox.OffsetInRange listBoxThree
    norm_num
  have h := listBox_offset_in_range listBoxThree htyped (by decide) hinv
  obtain ⟨moved, l1, hw⟩ := h.2.2.2.2.2.2 (by unfold intMax listBoxThree; norm_num) 0 (-1)
  obtain ⟨hr, _, hup, _⟩ := h.2.2.2.1 0 (-1) moved l1 hw
  exact ⟨moved, l1, hw, hr, hup.mpr ⟨by decide, by decide⟩⟩

end Reone
